import Mathlib

/-!
# Harness Terraform provider: gitops repository and pipeline resources

A shallow embedding of

* `internal/service/platform/gitops/repository/resource_gitops_repository.go`
* `internal/service/platform/pipeline/resource_pipeline.go`

The handlers are straight-line Go functions over two outside objects: the
`*schema.ResourceData` they mutate and the generated platform client they call.
Both are made explicit here.  The resource data is a value that is passed in and
returned; the client calls are nodes of a small program tree (`Prog`) that is
run against an arbitrary client, so that the calls a handler issues can be
counted and inspected.  A Go runtime panic (failed type assertion, nil pointer
dereference) is an explicit outcome.
-/

set_option autoImplicit false

namespace Harness

/-! ## Go values held by a `schema.ResourceData` -/

/-- Go `interface{}` values as the plugin SDK hands them to a provider:
the nil interface, `string`, `bool`, `[]interface{}` and
`map[string]interface{}`. -/
inductive Value where
  | nil
  | str (s : String)
  | bool (b : Bool)
  | list (xs : List Value)
  | map (m : List (String × Value))

/-- First binding of a key in an association list. -/
def find {β : Type} (k : String) : List (String × β) → Option β
  | [] => none
  | (k', v) :: rest => if k' = k then some v else find k rest

/-- Go map indexing `m[key]` on a `map[string]interface{}`: the nil interface
when the key is missing. -/
def Value.index (m : List (String × Value)) (key : String) : Value :=
  (find key m).getD Value.nil

/-- Go test `v != nil` on an interface value. -/
def Value.notNil : Value → Bool
  | .nil => false
  | _ => true

/-- Type assertion `v.(string)`; `none` is the runtime panic. -/
def Value.asString : Value → Option String
  | .str s => some s
  | _ => none

/-- Type assertion `v.(bool)`; `none` is the runtime panic. -/
def Value.asBool : Value → Option Bool
  | .bool b => some b
  | _ => none

/-- Type assertion `v.([]interface{})`; `none` is the runtime panic. -/
def Value.asList : Value → Option (List Value)
  | .list xs => some xs
  | _ => none

/-- Type assertion `v.(map[string]interface{})`; `none` is the runtime panic. -/
def Value.asMap : Value → Option (List (String × Value))
  | .map m => some m
  | _ => none

/-- Whether a value is the zero value of its type, as `GetOk` tests it
(`""`, `false`, the empty list). -/
def Value.isZero : Value → Bool
  | .nil => true
  | .str s => decide (s = "")
  | .bool b => !b
  | .list xs => xs.isEmpty
  | .map m => m.isEmpty

/-! ## Schemas -/

/-- Type of an attribute inside a nested block (`Elem: &schema.Resource`). -/
inductive ElemType where
  | TypeString
  | TypeBool
  | TypeListOfString
  deriving DecidableEq, Repr

/-- Type of a top-level attribute.  `TypeList fields` is `schema.TypeList` with
`Elem: &schema.Resource` whose schema is `fields`. -/
inductive FieldType where
  | TypeString
  | TypeBool
  | TypeList (fields : List (String × ElemType))
  deriving DecidableEq, Repr

/-- A `map[string]*schema.Schema`: attribute names with their types. -/
abbrev Schema := List (String × FieldType)

/-- Zero value of a nested attribute type. -/
def ElemType.zero : ElemType → Value
  | .TypeString => .str ""
  | .TypeBool => .bool false
  | .TypeListOfString => .list []

/-- Zero value of an attribute type, returned by `Get` for an unset attribute. -/
def FieldType.zero : FieldType → Value
  | .TypeString => .str ""
  | .TypeBool => .bool false
  | .TypeList _ => .list []

/-- Whether a value is a Go `string`. -/
def Value.isStr : Value → Bool
  | .str _ => true
  | _ => false

/-- Whether a value has the given nested attribute type. -/
def ElemType.admits : ElemType → Value → Bool
  | .TypeString, .str _ => true
  | .TypeBool, .bool _ => true
  | .TypeListOfString, .list xs => xs.all Value.isStr
  | _, _ => false

/-- An element of a list of blocks: a map all of whose entries are attributes
of the block schema with a value of the declared type (attributes may be
missing), or the nil interface, which is what the SDK hands over for a block
in which no attribute is set (such as `update_mask {}`). -/
def blockAdmits (fields : List (String × ElemType)) : Value → Bool
  | .map m => m.all fun kv =>
      match find kv.1 fields with
      | some t => t.admits kv.2
      | none => false
  | .nil => true
  | _ => false

/-- Whether a value has the given attribute type. -/
def FieldType.admits : FieldType → Value → Bool
  | .TypeString, .str _ => true
  | .TypeBool, .bool _ => true
  | .TypeList fields, .list xs => xs.all (blockAdmits fields)
  | _, _ => false

/-- An entry that `Set` accepts: the key is declared and the value has the
declared type. -/
def entryOk (sch : Schema) (kv : String × Value) : Bool :=
  match find kv.1 sch with
  | some t => t.admits kv.2
  | none => false

/-- Attributes of a block as read: every attribute of the block schema is
present, with its stored value or the zero value of its type. -/
def readAttrs (fields : List (String × ElemType)) (m : List (String × Value)) :
    List (String × Value) :=
  fields.map fun kt => (kt.1, (find kt.1 m).getD kt.2.zero)

/-- Reading a list element back: a block is read attribute by attribute; the
nil element of a block without attributes stays nil. -/
def readBlock (fields : List (String × ElemType)) : Value → Value
  | .map m => .map (readAttrs fields m)
  | v => v

/-- A stored value as `Get` returns it: the blocks of a list are read through
`readBlock`. -/
def FieldType.read : FieldType → Value → Value
  | .TypeList fields, .list xs => .list (xs.map (readBlock fields))
  | _, v => v

/-! ## `schema.ResourceData` -/

/-- The part of `*schema.ResourceData` (terraform-plugin-sdk) the handlers
touch: the resource id, the new-resource mark and the attribute values, merged
over configuration, prior state and earlier `Set` calls.  Values are typed by
the resource schema, as the SDK readers guarantee: a string or bool attribute
holds a string or a bool, a list attribute holds a list whose elements are
blocks (maps) or nil (a block in which no attribute is set).  Unknown
(computed) values do not occur in CRUD handlers and are not modelled. -/
structure ResourceData (sch : Schema) where
  id : String
  isNew : Bool
  values : List (String × Value)
  typed : values.all (entryOk sch) = true

namespace ResourceData

variable {sch : Schema}

/-- `d.Id()`. -/
def Id (d : ResourceData sch) : String := d.id

/-- `d.SetId(v)`. -/
def SetId (d : ResourceData sch) (v : String) : ResourceData sch :=
  { d with id := v }

/-- `d.MarkNewResource()`. -/
def MarkNewResource (d : ResourceData sch) : ResourceData sch :=
  { d with isNew := true }

/-- `d.Get(key)`: the value, or the zero value of the declared type when the
attribute was never set; the nil interface for a key outside the schema. -/
def Get (d : ResourceData sch) (key : String) : Value :=
  match find key sch with
  | none => .nil
  | some t =>
    match find key d.values with
    | none => t.zero
    | some v => t.read v

/-- `d.GetOk(key)`: the value and whether it is set to a non-zero value. -/
def GetOk (d : ResourceData sch) (key : String) : Value × Bool :=
  (d.Get key, !(d.Get key).isZero)

/-- `d.Set(key, value)`.  The SDK returns an error for an undeclared key or a
value of the wrong type and writes nothing; every caller here drops that
error. -/
def Set (d : ResourceData sch) (key : String) (value : Value) : ResourceData sch :=
  if h : entryOk sch (key, value) = true then
    { d with
      values := (key, value) :: d.values
      typed := by
        rw [List.all_cons, h, d.typed]
        rfl }
  else d

end ResourceData

/-! ## Schemas of the two resources -/

/-- Schema of the nested `repo` block of `ResourceGitopsRepositories`. -/
def repoBlockSchema : List (String × ElemType) :=
  [ ("repo", .TypeString),
    ("username", .TypeString),
    ("password", .TypeString),
    ("ssh_private_key", .TypeString),
    ("insecure_ignore_host_key", .TypeBool),
    ("insecure", .TypeBool),
    ("enable_lfs", .TypeBool),
    ("tls_client_cert_data", .TypeString),
    ("tls_client_cert_key", .TypeString),
    ("type_", .TypeString),
    ("name", .TypeString),
    ("inherited_creds", .TypeBool),
    ("enable_oci", .TypeBool),
    ("github_app_private_key", .TypeString),
    ("github_app_id", .TypeString),
    ("github_app_installation_id", .TypeString),
    ("github_app_enterprise_base_url", .TypeString),
    ("proxy", .TypeString),
    ("project", .TypeString),
    ("connection_type", .TypeString) ]

/-- Schema of the nested `update_mask` block. -/
def updateMaskBlockSchema : List (String × ElemType) :=
  [ ("paths", .TypeListOfString) ]

/-- The `Schema` map of `ResourceGitopsRepositories()`. -/
def gitopsRepositorySchema : Schema :=
  [ ("account_id", .TypeString),
    ("project_id", .TypeString),
    ("org_id", .TypeString),
    ("agent_id", .TypeString),
    ("identifier", .TypeString),
    ("repo", .TypeList repoBlockSchema),
    ("upsert", .TypeBool),
    ("creds_only", .TypeBool),
    ("query_repo", .TypeString),
    ("query_project", .TypeString),
    ("query_force_refresh", .TypeBool),
    ("update_mask", .TypeList updateMaskBlockSchema) ]

/-- Modelled from the spec: `helpers.SetProjectLevelResourceSchema` is not
among the source files.  The spec speaks of "account/org/project identifiers";
the attributes entered here are the ones the pipeline handlers read with
`.(string)`: `identifier`, `name`, `org_id` and `project_id`. -/
def SetProjectLevelResourceSchema (s : Schema) : Schema :=
  [ ("identifier", .TypeString),
    ("name", .TypeString),
    ("org_id", .TypeString),
    ("project_id", .TypeString) ] ++ s

/-- The `Schema` map of `ResourcePipeline()`. -/
def pipelineSchema : Schema :=
  SetProjectLevelResourceSchema [ ("yaml", .TypeString) ]

/-! ## Types of the generated client (`nextgen`)

Only the fields the two source files read or write are kept. -/

/-- The struct `nextgen.RepositoriesRepository`; the zero value is the empty
struct `nextgen.RepositoriesRepository{}`. -/
structure RepositoriesRepository where
  Repo : String := ""
  Username : String := ""
  Password : String := ""
  SshPrivateKey : String := ""
  InsecureIgnoreHostKey : Bool := false
  Insecure : Bool := false
  EnableLfs : Bool := false
  TlsClientCertData : String := ""
  TlsClientCertKey : String := ""
  Type_ : String := ""
  Name : String := ""
  InheritedCreds : Bool := false
  EnableOCI : Bool := false
  GithubAppPrivateKey : String := ""
  GithubAppID : String := ""
  GithubAppInstallationID : String := ""
  GithubAppEnterpriseBaseUrl : String := ""
  Proxy : String := ""
  Project : String := ""
  ConnectionType : String := ""
  deriving DecidableEq, Repr

/-- The struct `nextgen.Servicev1Repository`; `Repository` is a pointer. -/
structure Servicev1Repository where
  AccountIdentifier : String
  OrgIdentifier : String
  ProjectIdentifier : String
  AgentIdentifier : String
  Identifier : String
  Repository : Option RepositoriesRepository
  deriving DecidableEq, Repr

/-- The struct `nextgen.ProtobufFieldMask`. -/
structure ProtobufFieldMask where
  Paths : List String
  deriving DecidableEq, Repr

/-- The struct `nextgen.RepositoriesRepoUpdateRequest`. -/
structure RepositoriesRepoUpdateRequest where
  Repo : RepositoriesRepository
  UpdateMask : ProtobufFieldMask
  deriving DecidableEq, Repr

/-- The struct `nextgen.RepositoriesRepoCreateRequest`. -/
structure RepositoriesRepoCreateRequest where
  Upsert : Bool
  CredsOnly : Bool
  Repo : RepositoriesRepository
  deriving DecidableEq, Repr

/-- Options of `AgentRepositoryServiceCreateRepository`; each field is an
`optional.String`, `some x` being `optional.NewString(x)`. -/
structure CreateRepositoryOpts where
  AccountIdentifier : Option String
  OrgIdentifier : Option String
  ProjectIdentifier : Option String
  Identifier : Option String
  deriving DecidableEq, Repr

/-- Options of `AgentRepositoryServiceGet`. -/
structure GetRepositoryOpts where
  OrgIdentifier : Option String
  ProjectIdentifier : Option String
  QueryRepo : Option String
  QueryForceRefresh : Option Bool
  QueryProject : Option String
  deriving DecidableEq, Repr

/-- Options of `AgentRepositoryServiceUpdateRepository`. -/
structure UpdateRepositoryOpts where
  AccountIdentifier : Option String
  OrgIdentifier : Option String
  ProjectIdentifier : Option String
  deriving DecidableEq, Repr

/-- Options of `AgentRepositoryServiceDeleteRepository`. -/
structure DeleteRepositoryOpts where
  AccountIdentifier : Option String
  OrgIdentifier : Option String
  ProjectIdentifier : Option String
  QueryRepo : Option String
  QueryForceRefresh : Option Bool
  QueryProject : Option String
  deriving DecidableEq, Repr

/-- The struct `nextgen.Pipeline`. -/
structure Pipeline where
  Identifier : String
  Name : String
  OrgIdentifier : String
  ProjectIdentifier : String
  Yaml : String
  deriving DecidableEq, Repr

/-- The value reached as `pipeline.PipelineData`. -/
structure PipelineData where
  Pipeline : Pipeline
  deriving DecidableEq, Repr

/-- The struct `nextgen.PmsPipelineResponse`. -/
structure PmsPipelineResponse where
  YamlPipeline : String
  PipelineData : PipelineData
  deriving DecidableEq, Repr

/-- Response of `GetPipeline`; `Data` is a `*nextgen.PmsPipelineResponse`. -/
structure ResponseDtoPmsPipelineResponse where
  Data : Option PmsPipelineResponse
  deriving DecidableEq, Repr

/-- The fields of `*http.Response` a diagnostic can be built from. -/
structure HttpResponse where
  StatusCode : Nat
  Status : String
  deriving DecidableEq, Repr

/-- A Go `error` value. -/
structure GoError where
  message : String
  deriving DecidableEq, Repr

/-- One `diag.Diagnostic`. -/
structure Diagnostic where
  summary : String
  detail : String
  deriving DecidableEq, Repr

/-- The slice `diag.Diagnostics`; Go `nil` is the empty list. -/
abbrev Diagnostics := List Diagnostic

/-- The three results of a generated client method:
the decoded value, the `*http.Response` and the `error`. -/
structure ApiResult (α : Type) where
  value : α
  httpResp : Option HttpResponse
  err : Option GoError

/-! ## Client calls -/

/-- The client methods the two files call, with the arguments passed
(the `context.Context` apart). -/
inductive ApiCall where
  | AgentRepositoryServiceCreateRepository (body : RepositoriesRepoCreateRequest)
      (agentIdentifier : String) (opts : CreateRepositoryOpts)
  | AgentRepositoryServiceGet (agentIdentifier identifier accountIdentifier : String)
      (opts : GetRepositoryOpts)
  | AgentRepositoryServiceUpdateRepository (body : RepositoriesRepoUpdateRequest)
      (agentIdentifier identifier : String) (opts : UpdateRepositoryOpts)
  | AgentRepositoryServiceDeleteRepository (agentIdentifier identifier : String)
      (opts : DeleteRepositoryOpts)
  | GetPipeline (accountIdentifier orgIdentifier projectIdentifier pipelineIdentifier : String)
  | PostPipeline (body accountIdentifier orgIdentifier projectIdentifier : String)
  | UpdatePipelineV2 (body accountIdentifier orgIdentifier projectIdentifier
      pipelineIdentifier : String)
  | DeletePipeline (accountIdentifier orgIdentifier projectIdentifier
      pipelineIdentifier : String)
  deriving DecidableEq, Repr

/-- Type of the value a client method returns.  The handlers discard the value
of the delete and pipeline write methods (`_`); it is kept as the response
text. -/
def ApiCall.Payload : ApiCall → Type
  | .AgentRepositoryServiceCreateRepository .. => Servicev1Repository
  | .AgentRepositoryServiceGet .. => Servicev1Repository
  | .AgentRepositoryServiceUpdateRepository .. => Servicev1Repository
  | .AgentRepositoryServiceDeleteRepository .. => String
  | .GetPipeline .. => ResponseDtoPmsPipelineResponse
  | .PostPipeline .. => String
  | .UpdatePipelineV2 .. => String
  | .DeletePipeline .. => String

/-- A handler as a tree of client calls: it returns, it stops with a runtime
crash (Go panic), or it issues a call and continues on what the client
returned. -/
inductive Prog (α : Type) where
  | ret (a : α)
  | crash
  | call (req : ApiCall) (k : ApiResult req.Payload → Prog α)

/-- Continue with the value of a step that may crash. -/
def Prog.eval {α β : Type} (x : Option α) (k : α → Prog β) : Prog β :=
  match x with
  | none => .crash
  | some a => k a

/-- The platform client held by the session: the account id and, for every call,
what the remote platform answers.  `σ` is whatever the answers depend on
(the remote state, the network); a call may change it. -/
structure PlatformClient (σ : Type) where
  AccountId : String
  serve : σ → (req : ApiCall) → ApiResult req.Payload × σ

/-- One call issued and what came back. -/
structure Exchange where
  req : ApiCall
  reply : ApiResult req.Payload

/-- What a handler invocation leaves behind: the calls issued in order with
their replies, the handler result (`none` after a crash) and the remote state. -/
structure Run (σ α : Type) where
  trace : List Exchange
  result : Option α
  remote : σ

/-- Run a handler against a client. -/
def Prog.run {σ α : Type} (c : PlatformClient σ) : Prog α → σ → Run σ α
  | .ret a, s => { trace := [], result := some a, remote := s }
  | .crash, s => { trace := [], result := none, remote := s }
  | .call req k, s =>
    let out := (k (c.serve s req).1).run c (c.serve s req).2
    { out with trace := ⟨req, (c.serve s req).1⟩ :: out.trace }

/-! ## Package `helpers` -/

/-- The function `helpers.HandleApiError(err, d, httpResp)` is defined outside
the two files and is taken as given: from the error, the resource data (which
it receives by pointer and may change) and the HTTP response it yields the
resource data it leaves and the diagnostics it returns. -/
structure Helpers where
  HandleApiError : {sch : Schema} → GoError → ResourceData sch → Option HttpResponse →
    ResourceData sch × Diagnostics

/-! ## `resource_gitops_repository.go` -/

/-- The statement `if attr, ok := d.GetOk(key); ok { x = attr.(string) }` on a
variable `x` declared with `var x string`: the value `x` holds afterwards. -/
def okString (r : Value × Bool) : Option String :=
  if r.2 then r.1.asString else some ""

/-- The same statement for a `bool` variable. -/
def okBool (r : Value × Bool) : Option Bool :=
  if r.2 then r.1.asBool else some false

/-- The statement `if repo[key] != nil { repoObj.F = repo[key].(string) }`. -/
def assignString (repo : List (String × Value)) (key : String)
    (assign : RepositoriesRepository → String → RepositoriesRepository)
    (repoObj : RepositoriesRepository) : Option RepositoriesRepository :=
  if (Value.index repo key).notNil then
    (Value.index repo key).asString.map (assign repoObj)
  else some repoObj

/-- The statement `if repo[key] != nil { repoObj.F = repo[key].(bool) }`. -/
def assignBool (repo : List (String × Value)) (key : String)
    (assign : RepositoriesRepository → Bool → RepositoriesRepository)
    (repoObj : RepositoriesRepository) : Option RepositoriesRepository :=
  if (Value.index repo key).notNil then
    (Value.index repo key).asBool.map (assign repoObj)
  else some repoObj

/-- The twenty assignments of `buildRepo`, in source order. -/
def fillRepo (repo : List (String × Value)) (repoObj : RepositoriesRepository) :
    Option RepositoriesRepository :=
  some repoObj
    >>= assignString repo "repo" (fun o v => { o with Repo := v })
    >>= assignString repo "username" (fun o v => { o with Username := v })
    >>= assignString repo "password" (fun o v => { o with Password := v })
    >>= assignString repo "ssh_private_key" (fun o v => { o with SshPrivateKey := v })
    >>= assignBool repo "insecure_ignore_host_key"
          (fun o v => { o with InsecureIgnoreHostKey := v })
    >>= assignBool repo "insecure" (fun o v => { o with Insecure := v })
    >>= assignBool repo "enable_lfs" (fun o v => { o with EnableLfs := v })
    >>= assignString repo "tls_client_cert_data" (fun o v => { o with TlsClientCertData := v })
    >>= assignString repo "tls_client_cert_key" (fun o v => { o with TlsClientCertKey := v })
    >>= assignString repo "type_" (fun o v => { o with Type_ := v })
    >>= assignString repo "name" (fun o v => { o with Name := v })
    >>= assignBool repo "inherited_creds" (fun o v => { o with InheritedCreds := v })
    >>= assignBool repo "enable_oci" (fun o v => { o with EnableOCI := v })
    >>= assignString repo "github_app_private_key"
          (fun o v => { o with GithubAppPrivateKey := v })
    >>= assignString repo "github_app_id" (fun o v => { o with GithubAppID := v })
    >>= assignString repo "github_app_installation_id"
          (fun o v => { o with GithubAppInstallationID := v })
    >>= assignString repo "github_app_enterprise_base_url"
          (fun o v => { o with GithubAppEnterpriseBaseUrl := v })
    >>= assignString repo "proxy" (fun o v => { o with Proxy := v })
    >>= assignString repo "project" (fun o v => { o with Project := v })
    >>= assignString repo "connection_type" (fun o v => { o with ConnectionType := v })

/-- The function `buildRepo`; `none` is a runtime panic. -/
def buildRepo (d : ResourceData gitopsRepositorySchema) : Option RepositoriesRepository :=
  let repoObj : RepositoriesRepository := {}
  let (attr, ok) := d.GetOk "repo"
  if ok then
    if attr.notNil then
      attr.asList.bind fun l =>
        match l with
        | [] => some repoObj
        | first :: _ => first.asMap.bind fun repo => fillRepo repo repoObj
    else some repoObj
  else some repoObj

/-- The function `buildCreateRepoRequest`. -/
def buildCreateRepoRequest (d : ResourceData gitopsRepositorySchema) :
    Option RepositoriesRepoCreateRequest := do
  let upsert ← okBool (d.GetOk "upsert")
  let credsOnly ← okBool (d.GetOk "creds_only")
  let repo ← buildRepo d
  pure { Upsert := upsert, CredsOnly := credsOnly, Repo := repo }

/-- First half of `buildUpdateRepoRequest`: the variable `updateMask`
(`none` inside is the nil map). -/
def updateMaskOf (d : ResourceData gitopsRepositorySchema) :
    Option (Option (List (String × Value))) :=
  let (attr, ok) := d.GetOk "update_mask"
  if ok then
    attr.asList.bind fun l =>
      match l with
      | [] => some none
      | first :: _ => first.asMap.map some
  else some none

/-- The loop `for _, v := range paths { updateMaskPath = append(updateMaskPath, v.(string)) }`
started on a slice `acc`. -/
def appendPaths : List Value → List String → Option (List String)
  | [], acc => some acc
  | v :: rest, acc => v.asString.bind fun s => appendPaths rest (acc ++ [s])

/-- Second half of `buildUpdateRepoRequest`: the variable `updateMaskPath`. -/
def updateMaskPathOf (updateMask : Option (List (String × Value))) : Option (List String) :=
  match updateMask with
  | none => some []
  | some m =>
    if (Value.index m "paths").notNil then
      (Value.index m "paths").asList.bind fun l =>
        if l.length > 0 then appendPaths l [] else some []
    else some []

/-- The function `buildUpdateRepoRequest`. -/
def buildUpdateRepoRequest (d : ResourceData gitopsRepositorySchema) :
    Option RepositoriesRepoUpdateRequest := do
  let updateMask ← updateMaskOf d
  let updateMaskPath ← updateMaskPathOf updateMask
  let repo ← buildRepo d
  pure { Repo := repo, UpdateMask := { Paths := updateMaskPath } }

/-- The function `setRepositoryDetails`. -/
def setRepositoryDetails (d : ResourceData gitopsRepositorySchema)
    (repo : Servicev1Repository) : ResourceData gitopsRepositorySchema :=
  let d := d.SetId repo.Identifier
  let d := d.Set "account_id" (.str repo.AccountIdentifier)
  let d := d.Set "org_id" (.str repo.OrgIdentifier)
  let d := d.Set "project_id" (.str repo.ProjectIdentifier)
  let d := d.Set "agent_id" (.str repo.AgentIdentifier)
  let d := d.Set "identifier" (.str repo.Identifier)
  match repo.Repository with
  | some r =>
    let repoO : List (String × Value) :=
      [ ("repo", .str r.Repo),
        ("username", .str r.Username),
        ("password", .str r.Password),
        ("ssh_private_key", .str r.SshPrivateKey),
        ("insecure_ignore_host_key", .bool r.InsecureIgnoreHostKey),
        ("insecure", .bool r.Insecure),
        ("enable_lfs", .bool r.EnableLfs),
        ("tls_client_cert_data", .str r.TlsClientCertData),
        ("tls_client_cert_key", .str r.TlsClientCertKey),
        ("type_", .str r.Type_),
        ("name", .str r.Name),
        ("inherited_creds", .bool r.InheritedCreds),
        ("enable_oci", .bool r.EnableOCI),
        ("github_app_private_key", .str r.GithubAppPrivateKey),
        ("github_app_id", .str r.GithubAppID),
        ("github_app_installation_id", .str r.GithubAppInstallationID),
        ("github_app_enterprise_base_url", .str r.GithubAppEnterpriseBaseUrl),
        ("proxy", .str r.Proxy),
        ("project", .str r.Project),
        ("connection_type", .str r.ConnectionType) ]
    d.Set "repo" (.list [.map repoO])
  | none => d

/-- The handler `resourceGitOpsRepositoryCreate`. -/
def resourceGitOpsRepositoryCreate {σ : Type} (h : Helpers) (c : PlatformClient σ)
    (d : ResourceData gitopsRepositorySchema) :
    Prog (ResourceData gitopsRepositorySchema × Diagnostics) :=
  let accountIdentifier := c.AccountId
  Prog.eval (okString (d.GetOk "agent_id")) fun agentIdentifier =>
  Prog.eval (okString (d.GetOk "org_id")) fun orgIdentifier =>
  Prog.eval (okString (d.GetOk "project_id")) fun projectIdentifier =>
  Prog.eval (okString (d.GetOk "identifier")) fun identifier =>
  Prog.eval (buildCreateRepoRequest d) fun createRepoRequest =>
  .call (.AgentRepositoryServiceCreateRepository createRepoRequest agentIdentifier
      { AccountIdentifier := some accountIdentifier
        OrgIdentifier := some orgIdentifier
        ProjectIdentifier := some projectIdentifier
        Identifier := some identifier })
    fun resp =>
      match resp.err with
      | some err => .ret (h.HandleApiError err d resp.httpResp)
      | none =>
        match resp.value.Repository with
        | none => .ret ((d.SetId "").MarkNewResource, [])
        | some _ => .ret (setRepositoryDetails d resp.value, [])

/-- The handler `resourceGitOpsRepositoryRead`. -/
def resourceGitOpsRepositoryRead {σ : Type} (h : Helpers) (c : PlatformClient σ)
    (d : ResourceData gitopsRepositorySchema) :
    Prog (ResourceData gitopsRepositorySchema × Diagnostics) :=
  Prog.eval (okString (d.GetOk "org_id")) fun orgIdentifier =>
  Prog.eval (okString (d.GetOk "project_id")) fun projectIdentifier =>
  Prog.eval (okString (d.GetOk "agent_id")) fun agentIdentifier =>
  Prog.eval (okString (d.GetOk "identifier")) fun identifier =>
  Prog.eval (okString (d.GetOk "query_repo")) fun queryRepo =>
  Prog.eval (okString (d.GetOk "query_project")) fun queryProject =>
  Prog.eval (okBool (d.GetOk "query_force_refresh")) fun queryForceRefresh =>
  .call (.AgentRepositoryServiceGet agentIdentifier identifier c.AccountId
      { OrgIdentifier := some orgIdentifier
        ProjectIdentifier := some projectIdentifier
        QueryRepo := some queryRepo
        QueryForceRefresh := some queryForceRefresh
        QueryProject := some queryProject })
    fun resp =>
      match resp.err with
      | some err => .ret (h.HandleApiError err d resp.httpResp)
      | none =>
        match resp.value.Repository with
        | none => .ret ((d.SetId "").MarkNewResource, [])
        | some _ => .ret (setRepositoryDetails d resp.value, [])

/-- The handler `resourceGitOpsRepositoryUpdate`. -/
def resourceGitOpsRepositoryUpdate {σ : Type} (h : Helpers) (c : PlatformClient σ)
    (d : ResourceData gitopsRepositorySchema) :
    Prog (ResourceData gitopsRepositorySchema × Diagnostics) :=
  Prog.eval (okString (d.GetOk "org_id")) fun orgIdentifier =>
  Prog.eval (okString (d.GetOk "project_id")) fun projectIdentifier =>
  Prog.eval (okString (d.GetOk "agent_id")) fun agentIdentifier =>
  Prog.eval (okString (d.GetOk "identifier")) fun identifier =>
  Prog.eval (buildUpdateRepoRequest d) fun updateRepoRequest =>
  .call (.AgentRepositoryServiceUpdateRepository updateRepoRequest agentIdentifier identifier
      { AccountIdentifier := some c.AccountId
        OrgIdentifier := some orgIdentifier
        ProjectIdentifier := some projectIdentifier })
    fun resp =>
      match resp.err with
      | some err => .ret (h.HandleApiError err d resp.httpResp)
      | none =>
        match resp.value.Repository with
        | none => .ret ((d.SetId "").MarkNewResource, [])
        | some _ => .ret (setRepositoryDetails d resp.value, [])

/-- The handler `resourceGitOpsRepositoryDelete`. -/
def resourceGitOpsRepositoryDelete {σ : Type} (h : Helpers) (c : PlatformClient σ)
    (d : ResourceData gitopsRepositorySchema) :
    Prog (ResourceData gitopsRepositorySchema × Diagnostics) :=
  Prog.eval (okString (d.GetOk "org_id")) fun orgIdentifier =>
  Prog.eval (okString (d.GetOk "project_id")) fun projectIdentifier =>
  Prog.eval (okString (d.GetOk "agent_id")) fun agentIdentifier =>
  Prog.eval (okString (d.GetOk "identifier")) fun identifier =>
  Prog.eval (okString (d.GetOk "query_repo")) fun queryRepo =>
  Prog.eval (okString (d.GetOk "query_project")) fun queryProject =>
  Prog.eval (okBool (d.GetOk "query_force_refresh")) fun queryForceRefresh =>
  .call (.AgentRepositoryServiceDeleteRepository agentIdentifier identifier
      { AccountIdentifier := some c.AccountId
        OrgIdentifier := some orgIdentifier
        ProjectIdentifier := some projectIdentifier
        QueryRepo := some queryRepo
        QueryForceRefresh := some queryForceRefresh
        QueryProject := some queryProject })
    fun resp =>
      match resp.err with
      | some err => .ret (h.HandleApiError err d resp.httpResp)
      | none => .ret (d, [])

/-! ## `resource_pipeline.go` -/

/-- The function `buildPipeline`; `none` is a runtime panic. -/
def buildPipeline (d : ResourceData pipelineSchema) : Option Pipeline := do
  let identifier ← (d.Get "identifier").asString
  let name ← (d.Get "name").asString
  let orgIdentifier ← (d.Get "org_id").asString
  let projectIdentifier ← (d.Get "project_id").asString
  let yaml ← (d.Get "yaml").asString
  pure { Identifier := identifier, Name := name, OrgIdentifier := orgIdentifier,
         ProjectIdentifier := projectIdentifier, Yaml := yaml }

/-- The function `readPipeline`; the argument is a pointer, and `none` as a
result is the nil dereference. -/
def readPipeline (d : ResourceData pipelineSchema) (pipeline : Option PmsPipelineResponse) :
    Option (ResourceData pipelineSchema) :=
  match pipeline with
  | none => none
  | some p =>
    let d := d.SetId p.PipelineData.Pipeline.Identifier
    let d := d.Set "identifier" (.str p.PipelineData.Pipeline.Identifier)
    let d := d.Set "name" (.str p.PipelineData.Pipeline.Name)
    let d := d.Set "org_id" (.str p.PipelineData.Pipeline.OrgIdentifier)
    let d := d.Set "project_id" (.str p.PipelineData.Pipeline.ProjectIdentifier)
    let d := d.Set "yaml" (.str p.YamlPipeline)
    some d

/-- The handler `resourcePipelineRead`. -/
def resourcePipelineRead {σ : Type} (h : Helpers) (c : PlatformClient σ)
    (d : ResourceData pipelineSchema) : Prog (ResourceData pipelineSchema × Diagnostics) :=
  let id := d.Id
  Prog.eval (d.Get "org_id").asString fun orgId =>
  Prog.eval (d.Get "project_id").asString fun projectId =>
  .call (.GetPipeline c.AccountId orgId projectId id) fun resp =>
    match resp.err with
    | some err => .ret (h.HandleApiError err d resp.httpResp)
    | none => Prog.eval (readPipeline d resp.value.Data) fun d' => .ret (d', [])

/-- The part of `resourcePipelineCreateOrUpdate` after the write call, on the
`httpResp` and `err` that call assigned. -/
def afterPipelineWrite {σ : Type} (h : Helpers) (c : PlatformClient σ)
    (d : ResourceData pipelineSchema) (pipeline : Pipeline)
    (httpResp : Option HttpResponse) (err : Option GoError) :
    Prog (ResourceData pipelineSchema × Diagnostics) :=
  match err with
  | some e => .ret (h.HandleApiError e d httpResp)
  | none =>
    .call (.GetPipeline c.AccountId pipeline.OrgIdentifier pipeline.ProjectIdentifier
        pipeline.Identifier) fun resp =>
      match resp.err with
      | some e => .ret (h.HandleApiError e d resp.httpResp)
      | none => Prog.eval (readPipeline d resp.value.Data) fun d' => .ret (d', [])

/-- The handler `resourcePipelineCreateOrUpdate`. -/
def resourcePipelineCreateOrUpdate {σ : Type} (h : Helpers) (c : PlatformClient σ)
    (d : ResourceData pipelineSchema) : Prog (ResourceData pipelineSchema × Diagnostics) :=
  let id := d.Id
  Prog.eval (buildPipeline d) fun pipeline =>
  if id = "" then
    .call (.PostPipeline pipeline.Yaml c.AccountId pipeline.OrgIdentifier
        pipeline.ProjectIdentifier) fun w =>
      afterPipelineWrite h c d pipeline w.httpResp w.err
  else
    .call (.UpdatePipelineV2 pipeline.Yaml c.AccountId pipeline.OrgIdentifier
        pipeline.ProjectIdentifier id) fun w =>
      afterPipelineWrite h c d pipeline w.httpResp w.err

/-- The handler `resourcePipelineDelete`. -/
def resourcePipelineDelete {σ : Type} (h : Helpers) (c : PlatformClient σ)
    (d : ResourceData pipelineSchema) : Prog (ResourceData pipelineSchema × Diagnostics) :=
  Prog.eval (buildPipeline d) fun pipeline =>
  .call (.DeletePipeline c.AccountId pipeline.OrgIdentifier pipeline.ProjectIdentifier
      pipeline.Identifier) fun resp =>
    match resp.err with
    | some err => .ret (h.HandleApiError err d resp.httpResp)
    | none => .ret (d, [])

/-! ## Statements about the handlers

Auxiliary definitions used to state the properties below. -/

/-- The map `repoO` that `setRepositoryDetails` builds from a repository. -/
def repoBlockOf (r : RepositoriesRepository) : List (String × Value) :=
  [
    ("repo", .str r.Repo),
    ("username", .str r.Username),
    ("password", .str r.Password),
    ("ssh_private_key", .str r.SshPrivateKey),
    ("insecure_ignore_host_key", .bool r.InsecureIgnoreHostKey),
    ("insecure", .bool r.Insecure),
    ("enable_lfs", .bool r.EnableLfs),
    ("tls_client_cert_data", .str r.TlsClientCertData),
    ("tls_client_cert_key", .str r.TlsClientCertKey),
    ("type_", .str r.Type_),
    ("name", .str r.Name),
    ("inherited_creds", .bool r.InheritedCreds),
    ("enable_oci", .bool r.EnableOCI),
    ("github_app_private_key", .str r.GithubAppPrivateKey),
    ("github_app_id", .str r.GithubAppID),
    ("github_app_installation_id", .str r.GithubAppInstallationID),
    ("github_app_enterprise_base_url", .str r.GithubAppEnterpriseBaseUrl),
    ("proxy", .str r.Proxy),
    ("project", .str r.Project),
    ("connection_type", .str r.ConnectionType) ]

/-- The string a value holds; `""` for a value that is not a string. -/
def Value.strOf (v : Value) : String := v.asString.getD ""

/-- The boolean a value holds; `false` for a value that is not a boolean. -/
def Value.boolOf (v : Value) : Bool := v.asBool.getD false

/-- The repository whose fields are the attributes of a block as read. -/
def repoOfBlock (m : List (String × Value)) : RepositoriesRepository :=
  {
    Repo := (Value.index m "repo").strOf,
    Username := (Value.index m "username").strOf,
    Password := (Value.index m "password").strOf,
    SshPrivateKey := (Value.index m "ssh_private_key").strOf,
    InsecureIgnoreHostKey := (Value.index m "insecure_ignore_host_key").boolOf,
    Insecure := (Value.index m "insecure").boolOf,
    EnableLfs := (Value.index m "enable_lfs").boolOf,
    TlsClientCertData := (Value.index m "tls_client_cert_data").strOf,
    TlsClientCertKey := (Value.index m "tls_client_cert_key").strOf,
    Type_ := (Value.index m "type_").strOf,
    Name := (Value.index m "name").strOf,
    InheritedCreds := (Value.index m "inherited_creds").boolOf,
    EnableOCI := (Value.index m "enable_oci").boolOf,
    GithubAppPrivateKey := (Value.index m "github_app_private_key").strOf,
    GithubAppID := (Value.index m "github_app_id").strOf,
    GithubAppInstallationID := (Value.index m "github_app_installation_id").strOf,
    GithubAppEnterpriseBaseUrl := (Value.index m "github_app_enterprise_base_url").strOf,
    Proxy := (Value.index m "proxy").strOf,
    Project := (Value.index m "project").strOf,
    ConnectionType := (Value.index m "connection_type").strOf }

/-- What `buildRepo` makes of a stored `repo` list: the empty struct when there
is no block, the repository held by the first block, and a panic (`none`) when
the first element is not a map. -/
def repoOfBlocks : List Value → Option RepositoriesRepository
  | [] => some {}
  | .map m :: _ => some (repoOfBlock (readAttrs repoBlockSchema m))
  | _ => none

/-- Whether a list attribute reads as a list whose first element is nil: the
first block of the attribute has no attribute set. -/
def firstBlockIsNil {sch : Schema} (d : ResourceData sch) (key : String) : Bool :=
  match d.Get key with
  | .list (.nil :: _) => true
  | _ => false

/-- Result of the create, read and update handlers on the reply of their
call, as the source computes it after the call. -/
def repositoryOutcome (h : Helpers) (d : ResourceData gitopsRepositorySchema)
    (resp : ApiResult Servicev1Repository) :
    ResourceData gitopsRepositorySchema × Diagnostics :=
  match resp.err with
  | some err => h.HandleApiError err d resp.httpResp
  | none =>
    match resp.value.Repository with
    | none => ((d.SetId "").MarkNewResource, [])
    | some _ => (setRepositoryDetails d resp.value, [])

/-- Every call that came back with an error is the last call of the run, and
the run returned what `HandleApiError` makes of that error, the resource data
`d` as the handler received it and the HTTP response of that call. -/
def ForwardsApiErrors {σ : Type} {sch : Schema} (h : Helpers) (d : ResourceData sch)
    (out : Run σ (ResourceData sch × Diagnostics)) : Prop :=
  ∀ (before after : List Exchange) (x : Exchange) (e : GoError),
    out.trace = before ++ x :: after → x.reply.err = some e →
      after = [] ∧ out.result = some (h.HandleApiError e d x.reply.httpResp)

/-- The `Repository` pointer in the response of a repository create, get or
update call (`some none` when it is nil); `none` for any other call. -/
def Exchange.repository : Exchange → Option (Option RepositoriesRepository)
  | ⟨.AgentRepositoryServiceCreateRepository .., r⟩ => some r.value.Repository
  | ⟨.AgentRepositoryServiceGet .., r⟩ => some r.value.Repository
  | ⟨.AgentRepositoryServiceUpdateRepository .., r⟩ => some r.value.Repository
  | _ => none

/-- Every repository call that came back with a nil error and a response whose
`Repository` is nil is the only call of the run, and the run returned no
diagnostics and the resource data `d` as the handler received it with the id
set to the empty string and the new-resource mark set. -/
def ClearsOnMissingRepository {σ : Type} (d : ResourceData gitopsRepositorySchema)
    (out : Run σ (ResourceData gitopsRepositorySchema × Diagnostics)) : Prop :=
  ∀ (before after : List Exchange) (x : Exchange),
    out.trace = before ++ x :: after → x.reply.err = none → x.repository = some none →
      before = [] ∧ after = [] ∧ out.result = some ((d.SetId "").MarkNewResource, [])

/-- Result of a handler that only forwards an error: what `HandleApiError`
returns on an error, the given result otherwise. -/
def forwardOr {sch : Schema} (h : Helpers) (d : ResourceData sch)
    (httpResp : Option HttpResponse) (err : Option GoError)
    (otherwise : ResourceData sch × Diagnostics) : ResourceData sch × Diagnostics :=
  match err with
  | some e => h.HandleApiError e d httpResp
  | none => otherwise

/-- Result of the pipeline handlers on the reply of `GetPipeline`, as the source
computes it after the call; `none` is the nil dereference in `readPipeline`. -/
def pipelineOutcome (h : Helpers) (d : ResourceData pipelineSchema)
    (resp : ApiResult ResponseDtoPmsPipelineResponse) :
    Option (ResourceData pipelineSchema × Diagnostics) :=
  match resp.err with
  | some err => some (h.HandleApiError err d resp.httpResp)
  | none => (readPipeline d resp.value.Data).map fun d' => (d', [])

/-- A program that stops at once, with a result or with a crash. -/
def Prog.stop {α : Type} : Option α → Prog α
  | some a => .ret a
  | none => .crash

/-- The write call of `resourcePipelineCreateOrUpdate`: `PostPipeline` on an
empty id, `UpdatePipelineV2` otherwise. -/
def pipelineWriteCall {σ : Type} (c : PlatformClient σ) (d : ResourceData pipelineSchema)
    (pipeline : Pipeline) : ApiCall :=
  if d.Id = "" then
    .PostPipeline pipeline.Yaml c.AccountId pipeline.OrgIdentifier pipeline.ProjectIdentifier
  else
    .UpdatePipelineV2 pipeline.Yaml c.AccountId pipeline.OrgIdentifier
      pipeline.ProjectIdentifier d.Id

/-! ## Sample inputs -/

/-- A configuration of the gitops repository resource whose `repo` block does
not set `type_`. -/
def exampleRepoConfig : ResourceData gitopsRepositorySchema :=
  { id := ""
    isNew := false
    values :=
      [ ("account_id", .str "acct"),
        ("agent_id", .str "account.agent1"),
        ("identifier", .str "demo"),
        ("repo", .list [.map [ ("repo", .str "https://github.com/harness/demo.git"),
                               ("connection_type", .str "HTTPS_ANONYMOUS") ]]) ]
    typed := by rfl }

/-- The configuration `exampleRepoConfig` with an `update_mask {}` block in
which no attribute is set. -/
def exampleEmptyMaskConfig : ResourceData gitopsRepositorySchema :=
  { id := "demo"
    isNew := false
    values :=
      [ ("account_id", .str "acct"),
        ("agent_id", .str "account.agent1"),
        ("identifier", .str "demo"),
        ("repo", .list [.map [ ("repo", .str "https://github.com/harness/demo.git"),
                               ("connection_type", .str "HTTPS_ANONYMOUS") ]]),
        ("update_mask", .list [.nil]) ]
    typed := by rfl }

/-- A configuration of the pipeline resource that was never applied (empty id). -/
def examplePipelineConfig : ResourceData pipelineSchema :=
  { id := ""
    isNew := false
    values :=
      [ ("identifier", .str "build"),
        ("name", .str "Build"),
        ("org_id", .str "default"),
        ("project_id", .str "demo"),
        ("yaml", .str "pipeline:\n  identifier: build\n") ]
    typed := by rfl }

/-- A repository as the platform may return it. -/
def exampleRepository : RepositoriesRepository :=
  { Repo := "https://github.com/harness/demo.git"
    Type_ := "git"
    Insecure := true
    ConnectionType := "HTTPS_ANONYMOUS" }

/-- A pipeline response as the platform may return it. -/
def examplePipelineResponse : PmsPipelineResponse :=
  { YamlPipeline := "pipeline:\n  identifier: build\n  name: Build\n"
    PipelineData :=
      { Pipeline :=
          { Identifier := "build", Name := "Build", OrgIdentifier := "default",
            ProjectIdentifier := "demo", Yaml := "" } } }

/-- A `HandleApiError` that reports the error text and leaves the resource
data alone. -/
def exampleHelpers : Helpers :=
  { HandleApiError := fun err d _ => (d, [{ summary := err.message, detail := "" }]) }

/-- A platform that answers every call without error: repository calls with
`exampleRepository`, `GetPipeline` with `examplePipelineResponse`. -/
def okClient : PlatformClient Unit :=
  { AccountId := "acct"
    serve := fun s req =>
      let ok : Option HttpResponse := some { StatusCode := 200, Status := "200 OK" }
      let repository : Servicev1Repository :=
        { AccountIdentifier := "acct", OrgIdentifier := "", ProjectIdentifier := "",
          AgentIdentifier := "account.agent1", Identifier := "demo",
          Repository := some exampleRepository }
      match req with
      | .AgentRepositoryServiceCreateRepository .. =>
        ({ value := repository, httpResp := ok, err := none }, s)
      | .AgentRepositoryServiceGet .. =>
        ({ value := repository, httpResp := ok, err := none }, s)
      | .AgentRepositoryServiceUpdateRepository .. =>
        ({ value := repository, httpResp := ok, err := none }, s)
      | .AgentRepositoryServiceDeleteRepository .. =>
        ({ value := "{}", httpResp := ok, err := none }, s)
      | .GetPipeline .. =>
        ({ value := { Data := some examplePipelineResponse }, httpResp := ok, err := none }, s)
      | .PostPipeline .. => ({ value := "{}", httpResp := ok, err := none }, s)
      | .UpdatePipelineV2 .. => ({ value := "{}", httpResp := ok, err := none }, s)
      | .DeletePipeline .. => ({ value := "{}", httpResp := ok, err := none }, s) }

/-- A platform that answers repository calls without error and without a
repository in the response. -/
def emptyClient : PlatformClient Unit :=
  { AccountId := "acct"
    serve := fun s req =>
      let ok : Option HttpResponse := some { StatusCode := 200, Status := "200 OK" }
      let repository : Servicev1Repository :=
        { AccountIdentifier := "", OrgIdentifier := "", ProjectIdentifier := "",
          AgentIdentifier := "", Identifier := "", Repository := none }
      match req with
      | .AgentRepositoryServiceCreateRepository .. =>
        ({ value := repository, httpResp := ok, err := none }, s)
      | .AgentRepositoryServiceGet .. =>
        ({ value := repository, httpResp := ok, err := none }, s)
      | .AgentRepositoryServiceUpdateRepository .. =>
        ({ value := repository, httpResp := ok, err := none }, s)
      | .AgentRepositoryServiceDeleteRepository .. =>
        ({ value := "{}", httpResp := ok, err := none }, s)
      | .GetPipeline .. => ({ value := { Data := none }, httpResp := ok, err := none }, s)
      | .PostPipeline .. => ({ value := "{}", httpResp := ok, err := none }, s)
      | .UpdatePipelineV2 .. => ({ value := "{}", httpResp := ok, err := none }, s)
      | .DeletePipeline .. => ({ value := "{}", httpResp := ok, err := none }, s) }

/-- A platform that answers every call with an error. -/
def failingClient : PlatformClient Unit :=
  { AccountId := "acct"
    serve := fun s req =>
      let resp : Option HttpResponse :=
        some { StatusCode := 500, Status := "500 Internal Server Error" }
      let err : Option GoError := some { message := "500 Internal Server Error" }
      let repository : Servicev1Repository :=
        { AccountIdentifier := "", OrgIdentifier := "", ProjectIdentifier := "",
          AgentIdentifier := "", Identifier := "", Repository := none }
      match req with
      | .AgentRepositoryServiceCreateRepository .. =>
        ({ value := repository, httpResp := resp, err := err }, s)
      | .AgentRepositoryServiceGet .. =>
        ({ value := repository, httpResp := resp, err := err }, s)
      | .AgentRepositoryServiceUpdateRepository .. =>
        ({ value := repository, httpResp := resp, err := err }, s)
      | .AgentRepositoryServiceDeleteRepository .. =>
        ({ value := "", httpResp := resp, err := err }, s)
      | .GetPipeline .. => ({ value := { Data := none }, httpResp := resp, err := err }, s)
      | .PostPipeline .. => ({ value := "", httpResp := resp, err := err }, s)
      | .UpdatePipelineV2 .. => ({ value := "", httpResp := resp, err := err }, s)
      | .DeletePipeline .. => ({ value := "", httpResp := resp, err := err }, s) }

/-! ## Reading typed attributes -/

theorem find_of_all {β : Type} (p : String × β → Bool) (k : String) :
    ∀ (l : List (String × β)) (v : β), l.all p = true → find k l = some v → p (k, v) = true
  | [], _, _, hf => by simp [find] at hf
  | (k', v') :: rest, v, hall, hf => by
    rw [List.all_cons, Bool.and_eq_true] at hall
    by_cases hk : k' = k
    · subst hk
      simp only [find, if_true, Option.some.injEq] at hf
      subst hf
      exact hall.1
    · simp only [find, hk, if_false] at hf
      exact find_of_all p k rest v hall.2 hf

/-- Every stored value has the type the schema declares for its key. -/
theorem ResourceData.stored_admits {sch : Schema} (d : ResourceData sch) (key : String)
    (t : FieldType) (v : Value) (hs : find key sch = some t)
    (hv : find key d.values = some v) : t.admits v = true := by
  have h := find_of_all (entryOk sch) key d.values v d.typed hv
  simpa [entryOk, hs] using h

theorem ResourceData.Get_string {sch : Schema} (d : ResourceData sch) (key : String)
    (hs : find key sch = some .TypeString) : ∃ s, d.Get key = .str s := by
  unfold ResourceData.Get
  rw [hs]
  cases hv : find key d.values with
  | none => exact ⟨"", rfl⟩
  | some v =>
    have h := d.stored_admits key _ v hs hv
    cases v <;> simp [FieldType.admits] at h
    exact ⟨_, rfl⟩

theorem ResourceData.Get_bool {sch : Schema} (d : ResourceData sch) (key : String)
    (hs : find key sch = some .TypeBool) : ∃ b, d.Get key = .bool b := by
  unfold ResourceData.Get
  rw [hs]
  cases hv : find key d.values with
  | none => exact ⟨false, rfl⟩
  | some v =>
    have h := d.stored_admits key _ v hs hv
    cases v <;> simp [FieldType.admits] at h
    exact ⟨_, rfl⟩

/-- A list attribute reads as a list of blocks, each block read through
`readBlock` from a stored map of the block type. -/
theorem ResourceData.Get_list {sch : Schema} (d : ResourceData sch) (key : String)
    (fields : List (String × ElemType)) (hs : find key sch = some (.TypeList fields)) :
    ∃ xs : List Value, xs.all (blockAdmits fields) = true ∧
      d.Get key = .list (xs.map (readBlock fields)) := by
  unfold ResourceData.Get
  rw [hs]
  cases hv : find key d.values with
  | none => exact ⟨[], rfl, rfl⟩
  | some v =>
    have h := d.stored_admits key _ v hs hv
    cases v <;> simp [FieldType.admits] at h
    rename_i xs
    refine ⟨xs, ?_, rfl⟩
    simpa using h

theorem okString_GetOk {sch : Schema} (d : ResourceData sch) (key : String)
    (hs : find key sch = some .TypeString) : ∃ s, okString (d.GetOk key) = some s := by
  obtain ⟨s, h⟩ := d.Get_string key hs
  unfold okString ResourceData.GetOk
  rw [h]
  by_cases hz : (!(Value.str s).isZero) = true
  · exact ⟨s, by simp [hz, Value.asString]⟩
  · exact ⟨"", by simp [hz]⟩

theorem okBool_GetOk {sch : Schema} (d : ResourceData sch) (key : String)
    (hs : find key sch = some .TypeBool) : ∃ b, okBool (d.GetOk key) = some b := by
  obtain ⟨b, h⟩ := d.Get_bool key hs
  unfold okBool ResourceData.GetOk
  rw [h]
  by_cases hz : (!(Value.bool b).isZero) = true
  · exact ⟨b, by simp [hz, Value.asBool]⟩
  · exact ⟨false, by simp [hz]⟩

/-! ## The `repo` block -/

theorem str_of_admits (v : Value) (h : ElemType.TypeString.admits v = true) :
    v = .str v.strOf := by
  cases v <;> simp [ElemType.admits] at h
  rfl

theorem bool_of_admits (v : Value) (h : ElemType.TypeBool.admits v = true) :
    v = .bool v.boolOf := by
  cases v <;> simp [ElemType.admits] at h
  rfl

theorem zero_admits (t : ElemType) : t.admits t.zero = true := by
  cases t <;> rfl

/-- An attribute read from a block of the declared type has the declared
type, also when the block does not hold it. -/
theorem read_attr_admits (fields : List (String × ElemType)) (m : List (String × Value))
    (hm : blockAdmits fields (.map m) = true) (k : String) (t : ElemType)
    (hk : find k fields = some t) : t.admits ((find k m).getD t.zero) = true := by
  cases hv : find k m with
  | none => simpa using zero_admits t
  | some v =>
    have h := find_of_all _ k m v hm hv
    simpa [hk] using h

/-- A `repo` block as read is the map of a repository. -/
theorem readBlock_repo (m : List (String × Value))
    (hm : blockAdmits repoBlockSchema (.map m) = true) :
    readBlock repoBlockSchema (.map m) =
      .map (repoBlockOf (repoOfBlock (readAttrs repoBlockSchema m))) := by
  have key := read_attr_admits repoBlockSchema m hm
  have e0 := str_of_admits _ (key "repo" .TypeString rfl)
  have e1 := str_of_admits _ (key "username" .TypeString rfl)
  have e2 := str_of_admits _ (key "password" .TypeString rfl)
  have e3 := str_of_admits _ (key "ssh_private_key" .TypeString rfl)
  have e4 := bool_of_admits _ (key "insecure_ignore_host_key" .TypeBool rfl)
  have e5 := bool_of_admits _ (key "insecure" .TypeBool rfl)
  have e6 := bool_of_admits _ (key "enable_lfs" .TypeBool rfl)
  have e7 := str_of_admits _ (key "tls_client_cert_data" .TypeString rfl)
  have e8 := str_of_admits _ (key "tls_client_cert_key" .TypeString rfl)
  have e9 := str_of_admits _ (key "type_" .TypeString rfl)
  have e10 := str_of_admits _ (key "name" .TypeString rfl)
  have e11 := bool_of_admits _ (key "inherited_creds" .TypeBool rfl)
  have e12 := bool_of_admits _ (key "enable_oci" .TypeBool rfl)
  have e13 := str_of_admits _ (key "github_app_private_key" .TypeString rfl)
  have e14 := str_of_admits _ (key "github_app_id" .TypeString rfl)
  have e15 := str_of_admits _ (key "github_app_installation_id" .TypeString rfl)
  have e16 := str_of_admits _ (key "github_app_enterprise_base_url" .TypeString rfl)
  have e17 := str_of_admits _ (key "proxy" .TypeString rfl)
  have e18 := str_of_admits _ (key "project" .TypeString rfl)
  have e19 := str_of_admits _ (key "connection_type" .TypeString rfl)
  simp only [ElemType.zero] at e0 e1 e2 e3 e4 e5 e6 e7 e8 e9 e10 e11 e12 e13 e14 e15 e16 e17 e18 e19
  simp only [readBlock, readAttrs, repoBlockSchema, List.map_cons, List.map_nil, repoBlockOf, repoOfBlock,
    Value.index, find, ElemType.zero, if_true, Option.getD_some]
  simp only [String.reduceEq, if_false, if_true, Option.getD_some]
  rw [← e0, ← e1, ← e2, ← e3, ← e4, ← e5, ← e6, ← e7, ← e8, ← e9, ← e10, ← e11, ← e12, ← e13, ← e14, ← e15, ← e16, ← e17, ← e18, ← e19]

theorem fillRepo_repoBlockOf (r : RepositoriesRepository) :
    fillRepo (repoBlockOf r) {} = some r := by
  rfl

/-! ## `Set` followed by `Get` -/

theorem ResourceData.Get_Set_same {sch : Schema} (d : ResourceData sch) (key : String)
    (t : FieldType) (v : Value) (hs : find key sch = some t) (hv : t.admits v = true) :
    (d.Set key v).Get key = t.read v := by
  have hok : entryOk sch (key, v) = true := by simp [entryOk, hs, hv]
  unfold ResourceData.Set
  rw [dif_pos hok]
  simp [ResourceData.Get, hs, find]

theorem ResourceData.Get_Set_other {sch : Schema} (d : ResourceData sch) (key key' : String)
    (v : Value) (hne : key ≠ key') : (d.Set key v).Get key' = d.Get key' := by
  unfold ResourceData.Set
  split
  · simp [ResourceData.Get, find, hne]
  · rfl

theorem ResourceData.Get_SetId {sch : Schema} (d : ResourceData sch) (v key : String) :
    (d.SetId v).Get key = d.Get key := rfl

/-! ## Totality of the request builders -/

theorem buildRepo_of_Get (d : ResourceData gitopsRepositorySchema) (xs : List Value)
    (hall : xs.all (blockAdmits repoBlockSchema) = true)
    (hget : d.Get "repo" = .list (xs.map (readBlock repoBlockSchema))) :
    buildRepo d = repoOfBlocks xs := by
  unfold buildRepo ResourceData.GetOk
  rw [hget]
  cases xs with
  | nil => rfl
  | cons x rest =>
    rw [List.all_cons, Bool.and_eq_true] at hall
    cases x with
    | map m =>
      simp only [List.map_cons, readBlock_repo m hall.1, Value.isZero, List.isEmpty_cons,
        Bool.not_false, if_true, Value.notNil, Value.asList, Option.some_bind, Value.asMap,
        fillRepo_repoBlockOf, repoOfBlocks]
    | nil => rfl
    | _ => simp [blockAdmits] at hall

/-- Unless the first `repo` block is nil, `buildRepo` returns. -/
theorem buildRepo_total (d : ResourceData gitopsRepositorySchema)
    (hrepo : firstBlockIsNil d "repo" = false) : ∃ r, buildRepo d = some r := by
  obtain ⟨xs, hall, hget⟩ := d.Get_list "repo" repoBlockSchema rfl
  rw [buildRepo_of_Get d xs hall hget]
  unfold firstBlockIsNil at hrepo
  rw [hget] at hrepo
  cases xs with
  | nil => exact ⟨_, rfl⟩
  | cons x rest =>
    rw [List.all_cons, Bool.and_eq_true] at hall
    cases x with
    | map m => exact ⟨_, rfl⟩
    | nil => simp [readBlock] at hrepo
    | _ => simp [blockAdmits] at hall

/-- On a nil first `repo` block `buildRepo` panics (line 412). -/
theorem buildRepo_crash (d : ResourceData gitopsRepositorySchema)
    (hrepo : firstBlockIsNil d "repo" = true) : buildRepo d = none := by
  obtain ⟨xs, hall, hget⟩ := d.Get_list "repo" repoBlockSchema rfl
  rw [buildRepo_of_Get d xs hall hget]
  unfold firstBlockIsNil at hrepo
  rw [hget] at hrepo
  cases xs with
  | nil => simp at hrepo
  | cons x rest =>
    rw [List.all_cons, Bool.and_eq_true] at hall
    cases x with
    | map m => simp [readBlock] at hrepo
    | nil => rfl
    | _ => simp [blockAdmits] at hall

theorem buildCreateRepoRequest_total (d : ResourceData gitopsRepositorySchema)
    (hrepo : firstBlockIsNil d "repo" = false) :
    ∃ req, buildCreateRepoRequest d = some req := by
  obtain ⟨u, hu⟩ := okBool_GetOk d "upsert" rfl
  obtain ⟨co, hc⟩ := okBool_GetOk d "creds_only" rfl
  obtain ⟨r, hr⟩ := buildRepo_total d hrepo
  simp [buildCreateRepoRequest, hu, hc, hr]

theorem appendPaths_total : ∀ (l : List Value) (acc : List String),
    l.all Value.isStr = true → ∃ ps, appendPaths l acc = some ps
  | [], acc, _ => ⟨acc, rfl⟩
  | v :: rest, acc, h => by
    rw [List.all_cons, Bool.and_eq_true] at h
    cases v with
    | str s =>
      obtain ⟨ps, hps⟩ := appendPaths_total rest (acc ++ [s]) h.2
      exact ⟨ps, by simp [appendPaths, Value.asString, hps]⟩
    | _ => simp [Value.isStr] at h

/-- Unless the first `update_mask` block is nil, the two halves of
`buildUpdateRepoRequest` that compute the mask paths return. -/
theorem updateMaskPath_total (d : ResourceData gitopsRepositorySchema)
    (hmask : firstBlockIsNil d "update_mask" = false) :
    ∃ ps, (updateMaskOf d).bind updateMaskPathOf = some ps := by
  obtain ⟨xs, hall, hget⟩ := d.Get_list "update_mask" updateMaskBlockSchema rfl
  unfold firstBlockIsNil at hmask
  rw [hget] at hmask
  unfold updateMaskOf ResourceData.GetOk
  rw [hget]
  cases xs with
  | nil => exact ⟨[], rfl⟩
  | cons x rest =>
    rw [List.all_cons, Bool.and_eq_true] at hall
    cases x with
    | nil => simp [readBlock] at hmask
    | map m =>
      have hm : blockAdmits updateMaskBlockSchema (.map m) = true := hall.1
      have hp := read_attr_admits updateMaskBlockSchema m hm "paths" .TypeListOfString rfl
      cases hv : (find "paths" m).getD ElemType.TypeListOfString.zero <;>
        simp [hv, ElemType.admits] at hp
      rename_i l
      cases l with
      | nil =>
        exact ⟨[], by
          simp [readBlock, readAttrs, updateMaskBlockSchema, Value.isZero, Value.asList,
            Value.asMap, updateMaskPathOf, Value.index, find, hv, Value.notNil]⟩
      | cons p ps =>
        obtain ⟨out, hout⟩ := appendPaths_total (p :: ps) [] (by simpa using hp)
        exact ⟨out, by
          simp [readBlock, readAttrs, updateMaskBlockSchema, Value.isZero, Value.asList,
            Value.asMap, updateMaskPathOf, Value.index, find, hv, Value.notNil, hout]⟩
    | _ => simp [blockAdmits] at hall

/-- On a nil first `update_mask` block the assertion
`attr.([]interface{})[0].(map[string]interface{})` (line 376) panics. -/
theorem updateMaskOf_crash (d : ResourceData gitopsRepositorySchema)
    (hmask : firstBlockIsNil d "update_mask" = true) : updateMaskOf d = none := by
  obtain ⟨xs, hall, hget⟩ := d.Get_list "update_mask" updateMaskBlockSchema rfl
  unfold firstBlockIsNil at hmask
  rw [hget] at hmask
  unfold updateMaskOf ResourceData.GetOk
  rw [hget]
  cases xs with
  | nil => simp at hmask
  | cons x rest =>
    rw [List.all_cons, Bool.and_eq_true] at hall
    cases x with
    | nil => rfl
    | map m => simp [readBlock] at hmask
    | _ => simp [blockAdmits] at hall

theorem buildUpdateRepoRequest_total (d : ResourceData gitopsRepositorySchema)
    (hrepo : firstBlockIsNil d "repo" = false)
    (hmask : firstBlockIsNil d "update_mask" = false) :
    ∃ req, buildUpdateRepoRequest d = some req := by
  obtain ⟨ps, hps⟩ := updateMaskPath_total d hmask
  obtain ⟨r, hr⟩ := buildRepo_total d hrepo
  cases hm : updateMaskOf d with
  | none => simp [hm] at hps
  | some um =>
    rw [hm, Option.some_bind] at hps
    simp [buildUpdateRepoRequest, hm, hps, hr]

theorem buildUpdateRepoRequest_crash (d : ResourceData gitopsRepositorySchema)
    (hmask : firstBlockIsNil d "update_mask" = true) : buildUpdateRepoRequest d = none := by
  simp [buildUpdateRepoRequest, updateMaskOf_crash d hmask]

theorem buildPipeline_total (d : ResourceData pipelineSchema) :
    ∃ p, buildPipeline d = some p := by
  obtain ⟨i, hi⟩ := d.Get_string "identifier" rfl
  obtain ⟨n, hn⟩ := d.Get_string "name" rfl
  obtain ⟨o, ho⟩ := d.Get_string "org_id" rfl
  obtain ⟨pr, hpr⟩ := d.Get_string "project_id" rfl
  obtain ⟨y, hy⟩ := d.Get_string "yaml" rfl
  simp [buildPipeline, hi, hn, ho, hpr, hy, Value.asString]

theorem buildCreateRepoRequest_repo (d : ResourceData gitopsRepositorySchema)
    (req : RepositoriesRepoCreateRequest) (h : buildCreateRepoRequest d = some req) :
    buildRepo d = some req.Repo := by
  obtain ⟨u, hu⟩ := okBool_GetOk d "upsert" rfl
  obtain ⟨co, hc⟩ := okBool_GetOk d "creds_only" rfl
  cases hr : buildRepo d with
  | none => simp [buildCreateRepoRequest, hu, hc, hr] at h
  | some r =>
    simp [buildCreateRepoRequest, hu, hc, hr] at h
    rw [← h]

theorem buildUpdateRepoRequest_repo (d : ResourceData gitopsRepositorySchema)
    (req : RepositoriesRepoUpdateRequest) (h : buildUpdateRepoRequest d = some req) :
    buildRepo d = some req.Repo := by
  cases hm : updateMaskOf d with
  | none => simp [buildUpdateRepoRequest, hm] at h
  | some um =>
    cases hp : updateMaskPathOf um with
    | none => simp [buildUpdateRepoRequest, hm, hp] at h
    | some ps =>
      cases hr : buildRepo d with
      | none => simp [buildUpdateRepoRequest, hm, hp, hr] at h
      | some r =>
        simp [buildUpdateRepoRequest, hm, hp, hr] at h
        rw [← h]

/-! ## Round trips of the two mappings -/

theorem buildRepo_setRepositoryDetails (d : ResourceData gitopsRepositorySchema)
    (resp : Servicev1Repository) (repository : RepositoriesRepository)
    (h : resp.Repository = some repository) :
    buildRepo (setRepositoryDetails d resp) = some repository := by
  have hget : (setRepositoryDetails d resp).Get "repo" =
      .list ([Value.map (repoBlockOf repository)].map (readBlock repoBlockSchema)) := by
    simp only [setRepositoryDetails, h]
    exact ResourceData.Get_Set_same _ "repo" (.TypeList repoBlockSchema)
      (.list [.map (repoBlockOf repository)]) rfl rfl
  exact buildRepo_of_Get _ [Value.map (repoBlockOf repository)] rfl hget

/-- C5: for every resource state `d` and every API response `resp` whose
`Repository` is non-nil, `buildRepo` on the state left by
`setRepositoryDetails(d, resp)` returns (without a panic) a repository that
agrees with `resp.Repository` on all twenty mapped fields. -/
theorem C5_repository_round_trip (d : ResourceData gitopsRepositorySchema)
    (resp : Servicev1Repository) (repository : RepositoriesRepository)
    (h : resp.Repository = some repository) :
    ∃ built, buildRepo (setRepositoryDetails d resp) = some built ∧
      built.Repo = repository.Repo ∧
      built.Username = repository.Username ∧
      built.Password = repository.Password ∧
      built.SshPrivateKey = repository.SshPrivateKey ∧
      built.InsecureIgnoreHostKey = repository.InsecureIgnoreHostKey ∧
      built.Insecure = repository.Insecure ∧
      built.EnableLfs = repository.EnableLfs ∧
      built.TlsClientCertData = repository.TlsClientCertData ∧
      built.TlsClientCertKey = repository.TlsClientCertKey ∧
      built.Type_ = repository.Type_ ∧
      built.Name = repository.Name ∧
      built.InheritedCreds = repository.InheritedCreds ∧
      built.EnableOCI = repository.EnableOCI ∧
      built.GithubAppPrivateKey = repository.GithubAppPrivateKey ∧
      built.GithubAppID = repository.GithubAppID ∧
      built.GithubAppInstallationID = repository.GithubAppInstallationID ∧
      built.GithubAppEnterpriseBaseUrl = repository.GithubAppEnterpriseBaseUrl ∧
      built.Proxy = repository.Proxy ∧
      built.Project = repository.Project ∧
      built.ConnectionType = repository.ConnectionType :=
  ⟨repository, buildRepo_setRepositoryDetails d resp repository h,
    rfl, rfl, rfl, rfl, rfl, rfl, rfl, rfl, rfl, rfl,
    rfl, rfl, rfl, rfl, rfl, rfl, rfl, rfl, rfl, rfl⟩

/-- Witness of C5: the round trip on `exampleRepoConfig` and a response that
carries `exampleRepository`; the repository built back has type `git` and the
`insecure` flag set. -/
theorem C5_repository_round_trip_witness :
    ∃ built,
      buildRepo (setRepositoryDetails exampleRepoConfig
        { AccountIdentifier := "acct", OrgIdentifier := "", ProjectIdentifier := "",
          AgentIdentifier := "account.agent1", Identifier := "demo",
          Repository := some exampleRepository }) = some built ∧
      built.Type_ = "git" ∧ built.Insecure = true := by
  obtain ⟨built, hb, _, _, _, _, _, hins, _, _, _, hty, _⟩ :=
    C5_repository_round_trip exampleRepoConfig
      { AccountIdentifier := "acct", OrgIdentifier := "", ProjectIdentifier := "",
        AgentIdentifier := "account.agent1", Identifier := "demo",
        Repository := some exampleRepository } exampleRepository rfl
  exact ⟨built, hb, hty, hins⟩

/-- C6: for every resource state `d` and every pipeline response `p`,
`readPipeline(d, p)` leaves a state on which `buildPipeline` returns (without a
panic) a `Pipeline` whose `Identifier`, `Name`, `OrgIdentifier` and
`ProjectIdentifier` are those of `p.PipelineData.Pipeline` and whose `Yaml` is
`p.YamlPipeline`. -/
theorem C6_pipeline_round_trip (d : ResourceData pipelineSchema) (p : PmsPipelineResponse) :
    ∃ d' built, readPipeline d (some p) = some d' ∧ buildPipeline d' = some built ∧
      built.Identifier = p.PipelineData.Pipeline.Identifier ∧
      built.Name = p.PipelineData.Pipeline.Name ∧
      built.OrgIdentifier = p.PipelineData.Pipeline.OrgIdentifier ∧
      built.ProjectIdentifier = p.PipelineData.Pipeline.ProjectIdentifier ∧
      built.Yaml = p.YamlPipeline :=
  ⟨_, _, rfl, rfl, rfl, rfl, rfl, rfl, rfl⟩

/-! ## The repository type sent to the platform -/

/-- C7, as the claim states it, fails: on `exampleRepoConfig`, whose `repo`
block has no `type_`, the create and the update request carry a repository
whose `Type_` is the empty string, not `git`. -/
theorem C7_type_is_not_git_when_absent :
    (∃ block, find "repo" exampleRepoConfig.values = some (.list [.map block]) ∧
      find "type_" block = none) ∧
    ∃ create update,
      buildCreateRepoRequest exampleRepoConfig = some create ∧
      buildUpdateRepoRequest exampleRepoConfig = some update ∧
      create.Repo.Type_ = "" ∧ update.Repo.Type_ = "" ∧
      create.Repo.Type_ ≠ "git" ∧ update.Repo.Type_ ≠ "git" :=
  ⟨⟨_, rfl, rfl⟩, _, _, rfl, rfl, rfl, rfl, by decide, by decide⟩

/-- C7 amended: for all resource data `d` (the values `buildRepo` reads:
configuration merged with prior state) whose first `repo` block holds no
`type_` or an empty one, `buildRepo` returns a repository whose `Type_` is the
empty string; the create request is built and carries that repository, every
update request that is built carries it, and the update request is built unless
the first `update_mask` block is nil.  No default is filled in. -/
theorem C7_type_sent_as_held (d : ResourceData gitopsRepositorySchema)
    (block : List (String × Value)) (others : List Value)
    (hrepo : find "repo" d.values = some (.list (.map block :: others)))
    (htype : find "type_" block = none ∨ find "type_" block = some (.str "")) :
    ∃ r, buildRepo d = some r ∧ r.Type_ = "" ∧
      (∃ create, buildCreateRepoRequest d = some create ∧ create.Repo = r) ∧
      (∀ update, buildUpdateRepoRequest d = some update → update.Repo = r) ∧
      (firstBlockIsNil d "update_mask" = false →
        ∃ update, buildUpdateRepoRequest d = some update) := by
  have hadm := d.stored_admits "repo" (.TypeList repoBlockSchema) _ rfl hrepo
  have hget : d.Get "repo" =
      .list ((Value.map block :: others).map (readBlock repoBlockSchema)) := by
    unfold ResourceData.Get
    rw [hrepo]
    rfl
  have hbuild := buildRepo_of_Get d _ hadm hget
  have hnil : firstBlockIsNil d "repo" = false := by
    unfold firstBlockIsNil
    rw [hget]
    rfl
  have hty : (repoOfBlock (readAttrs repoBlockSchema block)).Type_ = "" := by
    rcases htype with ht | ht <;>
      simp [repoOfBlock, readAttrs, repoBlockSchema, Value.index, find, ht,
        ElemType.zero, Value.strOf, Value.asString]
  refine ⟨_, hbuild, hty, ?_, ?_, ?_⟩
  · obtain ⟨create, hc⟩ := buildCreateRepoRequest_total d hnil
    have hc' := buildCreateRepoRequest_repo d create hc
    rw [hbuild] at hc'
    exact ⟨create, hc, (Option.some.inj hc').symm⟩
  · intro update hu
    have hu' := buildUpdateRepoRequest_repo d update hu
    rw [hbuild] at hu'
    exact (Option.some.inj hu').symm
  · intro hmask
    exact buildUpdateRepoRequest_total d hnil hmask

/-- Witness of C7 amended, on `exampleRepoConfig` (no `type_` in the block, no
`update_mask`): both requests are built and carry `Type_` empty. -/
theorem C7_type_sent_as_held_witness :
    ∃ create update,
      buildCreateRepoRequest exampleRepoConfig = some create ∧
      buildUpdateRepoRequest exampleRepoConfig = some update ∧
      create.Repo.Type_ = "" ∧ update.Repo.Type_ = "" := by
  obtain ⟨r, _, hty, ⟨create, hc, hcr⟩, hall, hex⟩ :=
    C7_type_sent_as_held exampleRepoConfig
      [ ("repo", .str "https://github.com/harness/demo.git"),
        ("connection_type", .str "HTTPS_ANONYMOUS") ] [] rfl (Or.inl rfl)
  obtain ⟨update, hu⟩ := hex rfl
  exact ⟨create, update, hc, hu, by rw [hcr, hty], by rw [hall update hu, hty]⟩

/-! ## Shape of the handlers -/

theorem run_call_ret {σ α : Type} (c : PlatformClient σ) (req : ApiCall)
    (f : ApiResult req.Payload → α) (s : σ) :
    (Prog.call req fun r => .ret (f r)).run c s =
      { trace := [⟨req, (c.serve s req).1⟩]
        result := some (f (c.serve s req).1)
        remote := (c.serve s req).2 } := rfl

theorem run_stop {σ α : Type} (c : PlatformClient σ) (x : Option α) (s : σ) :
    (Prog.stop x).run c s = { trace := [], result := x, remote := s } := by
  cases x <;> rfl

theorem run_call_stop {σ α : Type} (c : PlatformClient σ) (req : ApiCall)
    (f : ApiResult req.Payload → Option α) (s : σ) :
    (Prog.call req fun r => Prog.stop (f r)).run c s =
      { trace := [⟨req, (c.serve s req).1⟩]
        result := f (c.serve s req).1
        remote := (c.serve s req).2 } := by
  simp only [Prog.run, run_stop]

theorem create_shape {σ : Type} (h : Helpers) (c : PlatformClient σ)
    (d : ResourceData gitopsRepositorySchema) (body : RepositoriesRepoCreateRequest)
    (hb : buildCreateRepoRequest d = some body) :
    ∃ agent opts,
      resourceGitOpsRepositoryCreate h c d =
        .call (.AgentRepositoryServiceCreateRepository body agent opts)
          fun r => .ret (repositoryOutcome h d r) := by
  obtain ⟨agent, h1⟩ := okString_GetOk d "agent_id" rfl
  obtain ⟨org, h2⟩ := okString_GetOk d "org_id" rfl
  obtain ⟨proj, h3⟩ := okString_GetOk d "project_id" rfl
  obtain ⟨ident, h4⟩ := okString_GetOk d "identifier" rfl
  refine ⟨agent, ⟨some c.AccountId, some org, some proj, some ident⟩, ?_⟩
  simp only [resourceGitOpsRepositoryCreate, h1, h2, h3, h4, hb, Prog.eval]
  congr 1
  funext r
  rcases r with ⟨⟨_, _, _, _, _, rep⟩, hr, e⟩
  cases e with
  | some e => rfl
  | none => cases rep <;> rfl

/-- When `buildCreateRepoRequest` panics, the create handler stops before its
call. -/
theorem create_crash {σ : Type} (h : Helpers) (c : PlatformClient σ)
    (d : ResourceData gitopsRepositorySchema) (hb : buildCreateRepoRequest d = none) :
    resourceGitOpsRepositoryCreate h c d = .crash := by
  obtain ⟨agent, h1⟩ := okString_GetOk d "agent_id" rfl
  obtain ⟨org, h2⟩ := okString_GetOk d "org_id" rfl
  obtain ⟨proj, h3⟩ := okString_GetOk d "project_id" rfl
  obtain ⟨ident, h4⟩ := okString_GetOk d "identifier" rfl
  simp only [resourceGitOpsRepositoryCreate, h1, h2, h3, h4, hb, Prog.eval]

theorem read_shape {σ : Type} (h : Helpers) (c : PlatformClient σ)
    (d : ResourceData gitopsRepositorySchema) :
    ∃ agent ident account opts,
      resourceGitOpsRepositoryRead h c d =
        .call (.AgentRepositoryServiceGet agent ident account opts)
          fun r => .ret (repositoryOutcome h d r) := by
  obtain ⟨org, h1⟩ := okString_GetOk d "org_id" rfl
  obtain ⟨proj, h2⟩ := okString_GetOk d "project_id" rfl
  obtain ⟨agent, h3⟩ := okString_GetOk d "agent_id" rfl
  obtain ⟨ident, h4⟩ := okString_GetOk d "identifier" rfl
  obtain ⟨qr, h5⟩ := okString_GetOk d "query_repo" rfl
  obtain ⟨qp, h6⟩ := okString_GetOk d "query_project" rfl
  obtain ⟨qf, h7⟩ := okBool_GetOk d "query_force_refresh" rfl
  refine ⟨agent, ident, c.AccountId, ⟨some org, some proj, some qr, some qf, some qp⟩, ?_⟩
  simp only [resourceGitOpsRepositoryRead, h1, h2, h3, h4, h5, h6, h7, Prog.eval]
  congr 1
  funext r
  rcases r with ⟨⟨_, _, _, _, _, rep⟩, hr, e⟩
  cases e with
  | some e => rfl
  | none => cases rep <;> rfl

theorem update_shape {σ : Type} (h : Helpers) (c : PlatformClient σ)
    (d : ResourceData gitopsRepositorySchema) (body : RepositoriesRepoUpdateRequest)
    (hb : buildUpdateRepoRequest d = some body) :
    ∃ agent ident opts,
      resourceGitOpsRepositoryUpdate h c d =
        .call (.AgentRepositoryServiceUpdateRepository body agent ident opts)
          fun r => .ret (repositoryOutcome h d r) := by
  obtain ⟨org, h1⟩ := okString_GetOk d "org_id" rfl
  obtain ⟨proj, h2⟩ := okString_GetOk d "project_id" rfl
  obtain ⟨agent, h3⟩ := okString_GetOk d "agent_id" rfl
  obtain ⟨ident, h4⟩ := okString_GetOk d "identifier" rfl
  refine ⟨agent, ident, ⟨some c.AccountId, some org, some proj⟩, ?_⟩
  simp only [resourceGitOpsRepositoryUpdate, h1, h2, h3, h4, hb, Prog.eval]
  congr 1
  funext r
  rcases r with ⟨⟨_, _, _, _, _, rep⟩, hr, e⟩
  cases e with
  | some e => rfl
  | none => cases rep <;> rfl

/-- When `buildUpdateRepoRequest` panics, the update handler stops before its
call. -/
theorem update_crash {σ : Type} (h : Helpers) (c : PlatformClient σ)
    (d : ResourceData gitopsRepositorySchema) (hb : buildUpdateRepoRequest d = none) :
    resourceGitOpsRepositoryUpdate h c d = .crash := by
  obtain ⟨org, h1⟩ := okString_GetOk d "org_id" rfl
  obtain ⟨proj, h2⟩ := okString_GetOk d "project_id" rfl
  obtain ⟨agent, h3⟩ := okString_GetOk d "agent_id" rfl
  obtain ⟨ident, h4⟩ := okString_GetOk d "identifier" rfl
  simp only [resourceGitOpsRepositoryUpdate, h1, h2, h3, h4, hb, Prog.eval]

theorem delete_shape {σ : Type} (h : Helpers) (c : PlatformClient σ)
    (d : ResourceData gitopsRepositorySchema) :
    ∃ agent ident opts,
      resourceGitOpsRepositoryDelete h c d =
        .call (.AgentRepositoryServiceDeleteRepository agent ident opts)
          fun r => .ret (forwardOr h d r.httpResp r.err (d, [])) := by
  obtain ⟨org, h1⟩ := okString_GetOk d "org_id" rfl
  obtain ⟨proj, h2⟩ := okString_GetOk d "project_id" rfl
  obtain ⟨agent, h3⟩ := okString_GetOk d "agent_id" rfl
  obtain ⟨ident, h4⟩ := okString_GetOk d "identifier" rfl
  obtain ⟨qr, h5⟩ := okString_GetOk d "query_repo" rfl
  obtain ⟨qp, h6⟩ := okString_GetOk d "query_project" rfl
  obtain ⟨qf, h7⟩ := okBool_GetOk d "query_force_refresh" rfl
  refine ⟨agent, ident,
    ⟨some c.AccountId, some org, some proj, some qr, some qf, some qp⟩, ?_⟩
  simp only [resourceGitOpsRepositoryDelete, h1, h2, h3, h4, h5, h6, h7, Prog.eval]
  congr 1
  funext r
  rcases r with ⟨v, hr, e⟩
  cases e <;> rfl

theorem pipelineRead_shape {σ : Type} (h : Helpers) (c : PlatformClient σ)
    (d : ResourceData pipelineSchema) :
    ∃ account org proj ident,
      resourcePipelineRead h c d =
        .call (.GetPipeline account org proj ident)
          fun r => Prog.stop (pipelineOutcome h d r) := by
  obtain ⟨org, h1⟩ := d.Get_string "org_id" rfl
  obtain ⟨proj, h2⟩ := d.Get_string "project_id" rfl
  refine ⟨c.AccountId, org, proj, d.Id, ?_⟩
  simp only [resourcePipelineRead, h1, h2, Prog.eval, Value.asString]
  congr 1
  funext r
  rcases r with ⟨⟨data⟩, hr, e⟩
  cases e with
  | some e => rfl
  | none => cases data <;> rfl

theorem pipelineDelete_shape {σ : Type} (h : Helpers) (c : PlatformClient σ)
    (d : ResourceData pipelineSchema) :
    ∃ account org proj ident,
      resourcePipelineDelete h c d =
        .call (.DeletePipeline account org proj ident)
          fun r => .ret (forwardOr h d r.httpResp r.err (d, [])) := by
  obtain ⟨pl, hp⟩ := buildPipeline_total d
  refine ⟨c.AccountId, pl.OrgIdentifier, pl.ProjectIdentifier, pl.Identifier, ?_⟩
  simp only [resourcePipelineDelete, hp, Prog.eval]
  congr 1
  funext r
  rcases r with ⟨v, hr, e⟩
  cases e <;> rfl

theorem afterPipelineWrite_run {σ : Type} (h : Helpers) (c : PlatformClient σ)
    (d : ResourceData pipelineSchema) (pl : Pipeline) (httpResp : Option HttpResponse)
    (s : σ) :
    (∀ e, (afterPipelineWrite h c d pl httpResp (some e)).run c s =
      { trace := [], result := some (h.HandleApiError e d httpResp), remote := s }) ∧
    (afterPipelineWrite h c d pl httpResp none).run c s =
      { trace := [⟨.GetPipeline c.AccountId pl.OrgIdentifier pl.ProjectIdentifier
                    pl.Identifier,
                  (c.serve s (.GetPipeline c.AccountId pl.OrgIdentifier pl.ProjectIdentifier
                    pl.Identifier)).1⟩]
        result := pipelineOutcome h d
          (c.serve s (.GetPipeline c.AccountId pl.OrgIdentifier pl.ProjectIdentifier
            pl.Identifier)).1
        remote := (c.serve s (.GetPipeline c.AccountId pl.OrgIdentifier pl.ProjectIdentifier
            pl.Identifier)).2 } := by
  refine ⟨fun e => rfl, ?_⟩
  have hk : afterPipelineWrite h c d pl httpResp none =
      .call (.GetPipeline c.AccountId pl.OrgIdentifier pl.ProjectIdentifier pl.Identifier)
        fun r => Prog.stop (pipelineOutcome h d r) := by
    simp only [afterPipelineWrite]
    congr 1
    funext r
    rcases r with ⟨⟨data⟩, hr, e⟩
    cases e with
    | some e => rfl
    | none => cases data <;> rfl
  rw [hk, run_call_stop]

theorem pipelineCreateOrUpdate_shape {σ : Type} (h : Helpers) (c : PlatformClient σ)
    (d : ResourceData pipelineSchema) :
    ∃ pl, buildPipeline d = some pl ∧
      resourcePipelineCreateOrUpdate h c d =
        .call (pipelineWriteCall c d pl)
          fun w => afterPipelineWrite h c d pl w.httpResp w.err := by
  obtain ⟨pl, hp⟩ := buildPipeline_total d
  refine ⟨pl, hp, ?_⟩
  by_cases hid : d.Id = ""
  · have hw : pipelineWriteCall c d pl =
        .PostPipeline pl.Yaml c.AccountId pl.OrgIdentifier pl.ProjectIdentifier := if_pos hid
    rw [hw]
    simp only [resourcePipelineCreateOrUpdate, hp, Prog.eval, hid, if_true]
  · have hw : pipelineWriteCall c d pl =
        .UpdatePipelineV2 pl.Yaml c.AccountId pl.OrgIdentifier pl.ProjectIdentifier d.Id :=
      if_neg hid
    rw [hw]
    simp only [resourcePipelineCreateOrUpdate, hp, Prog.eval, hid, if_false]

/-- The run of `resourcePipelineCreateOrUpdate`: the write call, and after a
write without error the `GetPipeline` call. -/
theorem pipelineCreateOrUpdate_run {σ : Type} (h : Helpers) (c : PlatformClient σ)
    (d : ResourceData pipelineSchema) :
    ∃ pl, buildPipeline d = some pl ∧ ∀ s,
      (∀ e, (c.serve s (pipelineWriteCall c d pl)).1.err = some e →
        (resourcePipelineCreateOrUpdate h c d).run c s =
          { trace := [⟨pipelineWriteCall c d pl, (c.serve s (pipelineWriteCall c d pl)).1⟩]
            result := some (h.HandleApiError e d
              (c.serve s (pipelineWriteCall c d pl)).1.httpResp)
            remote := (c.serve s (pipelineWriteCall c d pl)).2 }) ∧
      ((c.serve s (pipelineWriteCall c d pl)).1.err = none →
        (resourcePipelineCreateOrUpdate h c d).run c s =
          { trace :=
              [ ⟨pipelineWriteCall c d pl, (c.serve s (pipelineWriteCall c d pl)).1⟩,
                ⟨.GetPipeline c.AccountId pl.OrgIdentifier pl.ProjectIdentifier pl.Identifier,
                 (c.serve (c.serve s (pipelineWriteCall c d pl)).2
                   (.GetPipeline c.AccountId pl.OrgIdentifier pl.ProjectIdentifier
                     pl.Identifier)).1⟩ ]
            result := pipelineOutcome h d
              (c.serve (c.serve s (pipelineWriteCall c d pl)).2
                (.GetPipeline c.AccountId pl.OrgIdentifier pl.ProjectIdentifier
                  pl.Identifier)).1
            remote :=
              (c.serve (c.serve s (pipelineWriteCall c d pl)).2
                (.GetPipeline c.AccountId pl.OrgIdentifier pl.ProjectIdentifier
                  pl.Identifier)).2 }) := by
  obtain ⟨pl, hp, hshape⟩ := pipelineCreateOrUpdate_shape h c d
  refine ⟨pl, hp, fun s => ⟨fun e he => ?_, fun he => ?_⟩⟩
  · rw [hshape]
    simp only [Prog.run, he, (afterPipelineWrite_run h c d pl _ _).1]
  · rw [hshape]
    simp only [Prog.run, he, (afterPipelineWrite_run h c d pl _ _).2]

/-! ## Errors of the client -/

theorem forwards_empty {σ : Type} {sch : Schema} (h : Helpers) (d : ResourceData sch)
    (out : Run σ (ResourceData sch × Diagnostics)) (htrace : out.trace = []) :
    ForwardsApiErrors h d out := by
  intro before after x e hsplit _
  rw [htrace] at hsplit
  simp at hsplit

theorem forwards_single {σ : Type} {sch : Schema} (h : Helpers) (d : ResourceData sch)
    (out : Run σ (ResourceData sch × Diagnostics)) (a : Exchange)
    (htrace : out.trace = [a])
    (hres : ∀ e, a.reply.err = some e →
      out.result = some (h.HandleApiError e d a.reply.httpResp)) :
    ForwardsApiErrors h d out := by
  intro before after x e hsplit hx
  rw [htrace] at hsplit
  cases before with
  | nil =>
    simp only [List.nil_append, List.cons.injEq] at hsplit
    obtain ⟨hax, hafter⟩ := hsplit
    subst hax
    exact ⟨hafter.symm, hres e hx⟩
  | cons b bs => simp at hsplit

theorem forwards_pair {σ : Type} {sch : Schema} (h : Helpers) (d : ResourceData sch)
    (out : Run σ (ResourceData sch × Diagnostics)) (a b : Exchange)
    (htrace : out.trace = [a, b]) (ha : a.reply.err = none)
    (hres : ∀ e, b.reply.err = some e →
      out.result = some (h.HandleApiError e d b.reply.httpResp)) :
    ForwardsApiErrors h d out := by
  intro before after x e hsplit hx
  rw [htrace] at hsplit
  cases before with
  | nil =>
    simp only [List.nil_append, List.cons.injEq] at hsplit
    obtain ⟨hax, _⟩ := hsplit
    subst hax
    rw [ha] at hx
    cases hx
  | cons b' bs =>
    cases bs with
    | nil =>
      simp only [List.cons_append, List.nil_append, List.cons.injEq] at hsplit
      obtain ⟨_, hbx, hafter⟩ := hsplit
      subst hbx
      exact ⟨hafter.symm, hres e hx⟩
    | cons b'' bs' => simp at hsplit

theorem repositoryOutcome_err (h : Helpers) (d : ResourceData gitopsRepositorySchema)
    (r : ApiResult Servicev1Repository) (e : GoError) (he : r.err = some e) :
    repositoryOutcome h d r = h.HandleApiError e d r.httpResp := by
  simp [repositoryOutcome, he]

theorem forwardOr_err {sch : Schema} (h : Helpers) (d : ResourceData sch)
    (httpResp : Option HttpResponse) (e : GoError)
    (otherwise : ResourceData sch × Diagnostics) :
    forwardOr h d httpResp (some e) otherwise = h.HandleApiError e d httpResp := rfl

theorem pipelineOutcome_err (h : Helpers) (d : ResourceData pipelineSchema)
    (r : ApiResult ResponseDtoPmsPipelineResponse) (e : GoError) (he : r.err = some e) :
    pipelineOutcome h d r = some (h.HandleApiError e d r.httpResp) := by
  simp [pipelineOutcome, he]

/-- C1: in every handler of both resources (gitops repository create, read,
update, delete; pipeline read, create-or-update, delete), run against any
client from any remote state on any resource data `d`: a call that came back
with a non-nil error is the last call of the run (no further call, no retry),
and the handler returned exactly `HandleApiError(err, d, httpResp)` for that
error, that HTTP response and the resource data as it was received (the
handler wrote nothing to it, before or after). -/
theorem C1_api_errors_forwarded {σ : Type} (h : Helpers) (c : PlatformClient σ) (s : σ) :
    (∀ d, ForwardsApiErrors h d ((resourceGitOpsRepositoryCreate h c d).run c s)) ∧
    (∀ d, ForwardsApiErrors h d ((resourceGitOpsRepositoryRead h c d).run c s)) ∧
    (∀ d, ForwardsApiErrors h d ((resourceGitOpsRepositoryUpdate h c d).run c s)) ∧
    (∀ d, ForwardsApiErrors h d ((resourceGitOpsRepositoryDelete h c d).run c s)) ∧
    (∀ d, ForwardsApiErrors h d ((resourcePipelineRead h c d).run c s)) ∧
    (∀ d, ForwardsApiErrors h d ((resourcePipelineCreateOrUpdate h c d).run c s)) ∧
    (∀ d, ForwardsApiErrors h d ((resourcePipelineDelete h c d).run c s)) := by
  refine ⟨fun d => ?_, fun d => ?_, fun d => ?_, fun d => ?_, fun d => ?_, fun d => ?_,
    fun d => ?_⟩
  · cases hb : buildCreateRepoRequest d with
    | none =>
      rw [create_crash h c d hb]
      exact forwards_empty h d _ rfl
    | some body =>
      obtain ⟨agent, opts, hs⟩ := create_shape h c d body hb
      rw [hs, run_call_ret]
      exact forwards_single h d _ _ rfl fun e he => by
        simp only [repositoryOutcome_err h d _ e he]
  · obtain ⟨agent, ident, account, opts, hs⟩ := read_shape h c d
    rw [hs, run_call_ret]
    exact forwards_single h d _ _ rfl fun e he => by
      simp only [repositoryOutcome_err h d _ e he]
  · cases hb : buildUpdateRepoRequest d with
    | none =>
      rw [update_crash h c d hb]
      exact forwards_empty h d _ rfl
    | some body =>
      obtain ⟨agent, ident, opts, hs⟩ := update_shape h c d body hb
      rw [hs, run_call_ret]
      exact forwards_single h d _ _ rfl fun e he => by
        simp only [repositoryOutcome_err h d _ e he]
  · obtain ⟨agent, ident, opts, hs⟩ := delete_shape h c d
    rw [hs, run_call_ret]
    exact forwards_single h d _ _ rfl fun e he => by
      simp only at he
      simp only [he, forwardOr_err]
  · obtain ⟨account, org, proj, ident, hs⟩ := pipelineRead_shape h c d
    rw [hs, run_call_stop]
    exact forwards_single h d _ _ rfl fun e he => by
      simp only [pipelineOutcome_err h d _ e he]
  · obtain ⟨pl, _, hrun⟩ := pipelineCreateOrUpdate_run h c d
    cases hw : (c.serve s (pipelineWriteCall c d pl)).1.err with
    | some e =>
      rw [(hrun s).1 e hw]
      exact forwards_single h d _ _ rfl fun e' he' => by
        simp only at he'
        rw [hw] at he'
        cases he'
        rfl
    | none =>
      rw [(hrun s).2 hw]
      exact forwards_pair h d _ _ _ rfl hw fun e he => by
        simp only [pipelineOutcome_err h d _ e he]
  · obtain ⟨account, org, proj, ident, hs⟩ := pipelineDelete_shape h c d
    rw [hs, run_call_ret]
    exact forwards_single h d _ _ rfl fun e he => by
      simp only at he
      simp only [he, forwardOr_err]

/-- Witness of C1: against a platform that answers every call with a 500 error,
gitops repository create and pipeline create-or-update issue one call and
return what `HandleApiError` makes of that error on the untouched resource
data. -/
theorem C1_api_errors_forwarded_witness :
    ((resourceGitOpsRepositoryCreate exampleHelpers failingClient exampleRepoConfig).run
        failingClient ()).result =
      some (exampleHelpers.HandleApiError { message := "500 Internal Server Error" }
        exampleRepoConfig (some { StatusCode := 500, Status := "500 Internal Server Error" })) ∧
    ((resourcePipelineCreateOrUpdate exampleHelpers failingClient examplePipelineConfig).run
        failingClient ()).result =
      some (exampleHelpers.HandleApiError { message := "500 Internal Server Error" }
        examplePipelineConfig
        (some { StatusCode := 500, Status := "500 Internal Server Error" })) :=
  ⟨((C1_api_errors_forwarded exampleHelpers failingClient ()).1 exampleRepoConfig
      [] [] _ { message := "500 Internal Server Error" } rfl rfl).2,
   ((C1_api_errors_forwarded exampleHelpers failingClient ()).2.2.2.2.2.1
      examplePipelineConfig [] [] _ { message := "500 Internal Server Error" } rfl rfl).2⟩

/-! ## Number of client calls -/

/-- C2, as the claim states it, fails: pipeline create-or-update on a
configuration that was never applied, against a platform that answers every
call without error, issues two client calls (`PostPipeline`, then
`GetPipeline`), not one. -/
theorem C2_pipeline_write_issues_two_calls :
    ((resourcePipelineCreateOrUpdate exampleHelpers okClient examplePipelineConfig).run
        okClient ()).trace.length = 2 ∧
    ((resourcePipelineCreateOrUpdate exampleHelpers okClient examplePipelineConfig).run
        okClient ()).trace.map (fun x => x.req) =
      [ .PostPipeline "pipeline:\n  identifier: build\n" "acct" "default" "demo",
        .GetPipeline "acct" "default" "demo" "build" ] ∧
    ((resourcePipelineCreateOrUpdate exampleHelpers okClient examplePipelineConfig).run
        okClient ()).trace.length ≠ 1 :=
  ⟨rfl, rfl, by decide⟩

/-- C2 amended: for every client and every client response, gitops repository
read and delete and pipeline read and delete issue exactly one client call on
every resource data; gitops repository create issues exactly one call unless
the first `repo` block is nil, and update issues exactly one call unless the
first `repo` or `update_mask` block is nil.  Pipeline create-or-update issues
its write call, `PostPipeline` when the id is empty and `UpdatePipelineV2` with
that id otherwise, and nothing else when that call returns an error; when it
returns no error it issues one further call, `GetPipeline` for the configured
identifier. -/
theorem C2_calls_per_invocation {σ : Type} (h : Helpers) (c : PlatformClient σ) (s : σ) :
    (∀ d, firstBlockIsNil d "repo" = false →
      ((resourceGitOpsRepositoryCreate h c d).run c s).trace.length = 1) ∧
    (∀ d, ((resourceGitOpsRepositoryRead h c d).run c s).trace.length = 1) ∧
    (∀ d, firstBlockIsNil d "repo" = false → firstBlockIsNil d "update_mask" = false →
      ((resourceGitOpsRepositoryUpdate h c d).run c s).trace.length = 1) ∧
    (∀ d, ((resourceGitOpsRepositoryDelete h c d).run c s).trace.length = 1) ∧
    (∀ d, ((resourcePipelineRead h c d).run c s).trace.length = 1) ∧
    (∀ d, ((resourcePipelineDelete h c d).run c s).trace.length = 1) ∧
    (∀ d, ∃ (pl : Pipeline) (w : Exchange), buildPipeline d = some pl ∧
      (d.Id = "" → w.req =
        .PostPipeline pl.Yaml c.AccountId pl.OrgIdentifier pl.ProjectIdentifier) ∧
      (d.Id ≠ "" → w.req =
        .UpdatePipelineV2 pl.Yaml c.AccountId pl.OrgIdentifier pl.ProjectIdentifier d.Id) ∧
      (((∃ e, w.reply.err = some e) ∧
          ((resourcePipelineCreateOrUpdate h c d).run c s).trace = [w]) ∨
       (w.reply.err = none ∧ ∃ g : Exchange,
          g.req = .GetPipeline c.AccountId pl.OrgIdentifier pl.ProjectIdentifier
            pl.Identifier ∧
          ((resourcePipelineCreateOrUpdate h c d).run c s).trace = [w, g]))) := by
  refine ⟨fun d hrepo => ?_, fun d => ?_, fun d hrepo hmask => ?_, fun d => ?_, fun d => ?_,
    fun d => ?_, fun d => ?_⟩
  · obtain ⟨body, hb⟩ := buildCreateRepoRequest_total d hrepo
    obtain ⟨agent, opts, hs⟩ := create_shape h c d body hb
    rw [hs, run_call_ret]
    rfl
  · obtain ⟨agent, ident, account, opts, hs⟩ := read_shape h c d
    rw [hs, run_call_ret]
    rfl
  · obtain ⟨body, hb⟩ := buildUpdateRepoRequest_total d hrepo hmask
    obtain ⟨agent, ident, opts, hs⟩ := update_shape h c d body hb
    rw [hs, run_call_ret]
    rfl
  · obtain ⟨agent, ident, opts, hs⟩ := delete_shape h c d
    rw [hs, run_call_ret]
    rfl
  · obtain ⟨account, org, proj, ident, hs⟩ := pipelineRead_shape h c d
    rw [hs, run_call_stop]
    rfl
  · obtain ⟨account, org, proj, ident, hs⟩ := pipelineDelete_shape h c d
    rw [hs, run_call_ret]
    rfl
  · obtain ⟨pl, hpl, hrun⟩ := pipelineCreateOrUpdate_run h c d
    refine ⟨pl, ⟨pipelineWriteCall c d pl, (c.serve s (pipelineWriteCall c d pl)).1⟩,
      hpl, fun hid => if_pos hid, fun hid => if_neg hid, ?_⟩
    have hcase : (∃ e, (c.serve s (pipelineWriteCall c d pl)).1.err = some e) ∨
        (c.serve s (pipelineWriteCall c d pl)).1.err = none := by
      cases (c.serve s (pipelineWriteCall c d pl)).1.err with
      | some e => exact Or.inl ⟨e, rfl⟩
      | none => exact Or.inr rfl
    rcases hcase with ⟨e, hw⟩ | hw
    · exact Or.inl ⟨⟨e, hw⟩, by rw [(hrun s).1 e hw]⟩
    · exact Or.inr ⟨hw,
        ⟨.GetPipeline c.AccountId pl.OrgIdentifier pl.ProjectIdentifier pl.Identifier,
          (c.serve (c.serve s (pipelineWriteCall c d pl)).2
            (.GetPipeline c.AccountId pl.OrgIdentifier pl.ProjectIdentifier pl.Identifier)).1⟩,
        rfl, by rw [(hrun s).2 hw]⟩

/-- Witness of C2 amended: on `exampleRepoConfig`, whose `repo` block is a map
and which has no `update_mask`, create and update each issue one call. -/
theorem C2_calls_per_invocation_witness :
    ((resourceGitOpsRepositoryCreate exampleHelpers okClient exampleRepoConfig).run
        okClient ()).trace.length = 1 ∧
    ((resourceGitOpsRepositoryUpdate exampleHelpers okClient exampleRepoConfig).run
        okClient ()).trace.length = 1 :=
  ⟨(C2_calls_per_invocation exampleHelpers okClient ()).1 exampleRepoConfig rfl,
   (C2_calls_per_invocation exampleHelpers okClient ()).2.2.1 exampleRepoConfig rfl rfl⟩

/-- On a nil first `update_mask` block (`update_mask {}`) the update handler
panics at line 376 before its call: no call is issued and nothing is
returned. -/
theorem update_crashes_on_nil_update_mask {σ : Type} (h : Helpers) (c : PlatformClient σ)
    (s : σ) (d : ResourceData gitopsRepositorySchema)
    (hmask : firstBlockIsNil d "update_mask" = true) :
    (resourceGitOpsRepositoryUpdate h c d).run c s =
      { trace := [], result := none, remote := s } := by
  rw [update_crash h c d (buildUpdateRepoRequest_crash d hmask)]
  rfl

/-- On a nil first `repo` block the create handler panics at line 412 before
its call: no call is issued and nothing is returned. -/
theorem create_crashes_on_nil_repo_block {σ : Type} (h : Helpers) (c : PlatformClient σ)
    (s : σ) (d : ResourceData gitopsRepositorySchema)
    (hrepo : firstBlockIsNil d "repo" = true) :
    (resourceGitOpsRepositoryCreate h c d).run c s =
      { trace := [], result := none, remote := s } := by
  have hb : buildCreateRepoRequest d = none := by
    obtain ⟨u, hu⟩ := okBool_GetOk d "upsert" rfl
    obtain ⟨co, hc⟩ := okBool_GetOk d "creds_only" rfl
    simp [buildCreateRepoRequest, hu, hc, buildRepo_crash d hrepo]
  rw [create_crash h c d hb]
  rfl

/-- The update handler on `exampleEmptyMaskConfig`: no call, no result. -/
theorem update_crashes_on_example :
    firstBlockIsNil exampleEmptyMaskConfig "update_mask" = true ∧
    ((resourceGitOpsRepositoryUpdate exampleHelpers okClient exampleEmptyMaskConfig).run
        okClient ()).trace.length = 0 ∧
    ((resourceGitOpsRepositoryUpdate exampleHelpers okClient exampleEmptyMaskConfig).run
        okClient ()).result = none :=
  ⟨rfl, rfl, rfl⟩

/-! ## A response without a repository -/

theorem clears_empty {σ : Type} (d : ResourceData gitopsRepositorySchema)
    (out : Run σ (ResourceData gitopsRepositorySchema × Diagnostics))
    (htrace : out.trace = []) : ClearsOnMissingRepository d out := by
  intro before after x hsplit _ _
  rw [htrace] at hsplit
  simp at hsplit

theorem clears_single {σ : Type} (d : ResourceData gitopsRepositorySchema)
    (out : Run σ (ResourceData gitopsRepositorySchema × Diagnostics)) (a : Exchange)
    (htrace : out.trace = [a])
    (hres : a.reply.err = none → a.repository = some none →
      out.result = some ((d.SetId "").MarkNewResource, [])) :
    ClearsOnMissingRepository d out := by
  intro before after x hsplit hx hrep
  rw [htrace] at hsplit
  cases before with
  | nil =>
    simp only [List.nil_append, List.cons.injEq] at hsplit
    obtain ⟨hax, hafter⟩ := hsplit
    subst hax
    exact ⟨rfl, hafter.symm, hres hx hrep⟩
  | cons b bs => simp at hsplit

theorem repositoryOutcome_missing (h : Helpers) (d : ResourceData gitopsRepositorySchema)
    (r : ApiResult Servicev1Repository) (he : r.err = none)
    (hrep : r.value.Repository = none) :
    repositoryOutcome h d r = ((d.SetId "").MarkNewResource, []) := by
  simp [repositoryOutcome, he, hrep]

/-- C3: in gitops repository create, read and update, run against any client
from any remote state on any resource data `d`: when the client call came back
with a nil error and a response whose `Repository` is nil, that call is the
only call of the run and the handler returned no diagnostics and `d` with the
id set to the empty string and the new-resource mark set.  The call is issued
by read always, by create unless the first `repo` block is nil and by update
unless the first `repo` or `update_mask` block is nil.  The resource data
returned holds the attribute values `d` held: every attribute (`account_id`,
`org_id`, `project_id`, `agent_id`, `identifier`, `repo`, ...) reads as it did,
so `setRepositoryDetails` was not applied. -/
theorem C3_missing_repository {σ : Type} (h : Helpers) (c : PlatformClient σ) (s : σ)
    (d : ResourceData gitopsRepositorySchema) :
    ClearsOnMissingRepository d ((resourceGitOpsRepositoryCreate h c d).run c s) ∧
    ClearsOnMissingRepository d ((resourceGitOpsRepositoryRead h c d).run c s) ∧
    ClearsOnMissingRepository d ((resourceGitOpsRepositoryUpdate h c d).run c s) ∧
    (firstBlockIsNil d "repo" = false → ∃ body agent opts,
      ((resourceGitOpsRepositoryCreate h c d).run c s).trace =
        [⟨.AgentRepositoryServiceCreateRepository body agent opts,
          (c.serve s (.AgentRepositoryServiceCreateRepository body agent opts)).1⟩]) ∧
    (∃ agent ident account opts,
      ((resourceGitOpsRepositoryRead h c d).run c s).trace =
        [⟨.AgentRepositoryServiceGet agent ident account opts,
          (c.serve s (.AgentRepositoryServiceGet agent ident account opts)).1⟩]) ∧
    (firstBlockIsNil d "repo" = false → firstBlockIsNil d "update_mask" = false →
      ∃ body agent ident opts,
        ((resourceGitOpsRepositoryUpdate h c d).run c s).trace =
          [⟨.AgentRepositoryServiceUpdateRepository body agent ident opts,
            (c.serve s
              (.AgentRepositoryServiceUpdateRepository body agent ident opts)).1⟩]) ∧
    ((d.SetId "").MarkNewResource).Id = "" ∧
    ((d.SetId "").MarkNewResource).isNew = true ∧
    ((d.SetId "").MarkNewResource).values = d.values ∧
    ∀ key, ((d.SetId "").MarkNewResource).Get key = d.Get key := by
  refine ⟨?_, ?_, ?_, fun hrepo => ?_, ?_, fun hrepo hmask => ?_, rfl, rfl, rfl,
    fun _ => rfl⟩
  rotate_left 3
  · obtain ⟨body, hb⟩ := buildCreateRepoRequest_total d hrepo
    obtain ⟨agent, opts, hs⟩ := create_shape h c d body hb
    exact ⟨body, agent, opts, by rw [hs, run_call_ret]⟩
  · obtain ⟨agent, ident, account, opts, hs⟩ := read_shape h c d
    exact ⟨agent, ident, account, opts, by rw [hs, run_call_ret]⟩
  · obtain ⟨body, hb⟩ := buildUpdateRepoRequest_total d hrepo hmask
    obtain ⟨agent, ident, opts, hs⟩ := update_shape h c d body hb
    exact ⟨body, agent, ident, opts, by rw [hs, run_call_ret]⟩
  · cases hb : buildCreateRepoRequest d with
    | none =>
      rw [create_crash h c d hb]
      exact clears_empty d _ rfl
    | some body =>
      obtain ⟨agent, opts, hs⟩ := create_shape h c d body hb
      rw [hs, run_call_ret]
      exact clears_single d _ _ rfl fun he hrep =>
        congrArg some (repositoryOutcome_missing h d _ he (Option.some.inj hrep))
  · obtain ⟨agent, ident, account, opts, hs⟩ := read_shape h c d
    rw [hs, run_call_ret]
    exact clears_single d _ _ rfl fun he hrep =>
      congrArg some (repositoryOutcome_missing h d _ he (Option.some.inj hrep))
  · cases hb : buildUpdateRepoRequest d with
    | none =>
      rw [update_crash h c d hb]
      exact clears_empty d _ rfl
    | some body =>
      obtain ⟨agent, ident, opts, hs⟩ := update_shape h c d body hb
      rw [hs, run_call_ret]
      exact clears_single d _ _ rfl fun he hrep =>
        congrArg some (repositoryOutcome_missing h d _ he (Option.some.inj hrep))

/-- Witness of C3: against a platform that answers repository calls with no
error and no repository, create, read and update on `exampleRepoConfig` return
no diagnostics and the configuration with an empty id and the new-resource
mark, its attribute values as they were. -/
theorem C3_missing_repository_witness :
    ((resourceGitOpsRepositoryCreate exampleHelpers emptyClient exampleRepoConfig).run
        emptyClient ()).result =
      some ({ exampleRepoConfig with id := "", isNew := true }, []) ∧
    ((resourceGitOpsRepositoryRead exampleHelpers emptyClient exampleRepoConfig).run
        emptyClient ()).result =
      some ({ exampleRepoConfig with id := "", isNew := true }, []) ∧
    ((resourceGitOpsRepositoryUpdate exampleHelpers emptyClient exampleRepoConfig).run
        emptyClient ()).result =
      some ({ exampleRepoConfig with id := "", isNew := true }, []) :=
  ⟨((C3_missing_repository exampleHelpers emptyClient () exampleRepoConfig).1
      [] [] _ rfl rfl rfl).2.2,
   ((C3_missing_repository exampleHelpers emptyClient () exampleRepoConfig).2.1
      [] [] _ rfl rfl rfl).2.2,
   ((C3_missing_repository exampleHelpers emptyClient () exampleRepoConfig).2.2.1
      [] [] _ rfl rfl rfl).2.2⟩

/-! ## The yaml left by a pipeline write -/

theorem readPipeline_yaml (d : ResourceData pipelineSchema) (p : PmsPipelineResponse) :
    ∃ d', readPipeline d (some p) = some d' ∧ d'.Get "yaml" = .str p.YamlPipeline :=
  ⟨_, rfl, rfl⟩

/-- C4, as the claim states it, fails: pipeline create-or-update on
`examplePipelineConfig` against a platform whose `PostPipeline` and
`GetPipeline` both return a nil error, the latter with a nil `Data`, issues
both calls and then panics in `readPipeline` (line 115): the handler returns
nothing and no yaml is taken from the `GetPipeline` response. -/
theorem C4_panics_on_missing_data :
    ((resourcePipelineCreateOrUpdate exampleHelpers emptyClient examplePipelineConfig).run
        emptyClient ()).trace.map (fun x => x.req) =
      [ .PostPipeline "pipeline:\n  identifier: build\n" "acct" "default" "demo",
        .GetPipeline "acct" "default" "demo" "build" ] ∧
    ((resourcePipelineCreateOrUpdate exampleHelpers emptyClient examplePipelineConfig).run
        emptyClient ()).trace.map (fun x => x.reply.err) = [none, none] ∧
    ((resourcePipelineCreateOrUpdate exampleHelpers emptyClient examplePipelineConfig).run
        emptyClient ()).result = none :=
  ⟨rfl, rfl, rfl⟩

/-- C4 amended: pipeline create-or-update issues its write call
(`PostPipeline` on an empty id, `UpdatePipelineV2` otherwise); when that call
and the `GetPipeline` call that follows it both return no error and the
`GetPipeline` response carries data `p` (its `Data` is not nil), the handler
returns no diagnostics and a resource state whose `yaml` attribute is
`p.YamlPipeline`, whatever yaml was configured and whatever the write call
returned. -/
theorem C4_yaml_from_get_pipeline {σ : Type} (h : Helpers) (c : PlatformClient σ)
    (d : ResourceData pipelineSchema) :
    ∃ pl, buildPipeline d = some pl ∧ ∀ (s : σ) (p : PmsPipelineResponse),
      (c.serve s (pipelineWriteCall c d pl)).1.err = none →
      (c.serve (c.serve s (pipelineWriteCall c d pl)).2
        (.GetPipeline c.AccountId pl.OrgIdentifier pl.ProjectIdentifier
          pl.Identifier)).1.err = none →
      (c.serve (c.serve s (pipelineWriteCall c d pl)).2
        (.GetPipeline c.AccountId pl.OrgIdentifier pl.ProjectIdentifier
          pl.Identifier)).1.value.Data = some p →
      ∃ d', ((resourcePipelineCreateOrUpdate h c d).run c s).result = some (d', []) ∧
        d'.Get "yaml" = .str p.YamlPipeline ∧
        ((resourcePipelineCreateOrUpdate h c d).run c s).trace =
          [ ⟨pipelineWriteCall c d pl, (c.serve s (pipelineWriteCall c d pl)).1⟩,
            ⟨.GetPipeline c.AccountId pl.OrgIdentifier pl.ProjectIdentifier pl.Identifier,
             (c.serve (c.serve s (pipelineWriteCall c d pl)).2
               (.GetPipeline c.AccountId pl.OrgIdentifier pl.ProjectIdentifier
                 pl.Identifier)).1⟩ ] := by
  obtain ⟨pl, hpl, hrun⟩ := pipelineCreateOrUpdate_run h c d
  refine ⟨pl, hpl, fun s p hw hg hdata => ?_⟩
  obtain ⟨d', hread, hyaml⟩ := readPipeline_yaml d p
  rw [(hrun s).2 hw]
  refine ⟨d', ?_, hyaml, rfl⟩
  simp only [pipelineOutcome, hg, hdata, hread, Option.map_some']

/-- Witness of C4 amended: on a configuration whose yaml is
`pipeline:\n  identifier: build\n`, against a platform whose write call returns
`{}` and whose `GetPipeline` returns `examplePipelineResponse`, the state left
holds the yaml of `examplePipelineResponse`. -/
theorem C4_yaml_from_get_pipeline_witness :
    ∃ d', ((resourcePipelineCreateOrUpdate exampleHelpers okClient
        examplePipelineConfig).run okClient ()).result = some (d', []) ∧
      d'.Get "yaml" = .str "pipeline:\n  identifier: build\n  name: Build\n" ∧
      examplePipelineConfig.Get "yaml" = .str "pipeline:\n  identifier: build\n" := by
  obtain ⟨pl, hpl, hall⟩ :=
    C4_yaml_from_get_pipeline exampleHelpers okClient examplePipelineConfig
  have hpl' : pl = ⟨"build", "Build", "default", "demo", "pipeline:\n  identifier: build\n"⟩ :=
    (Option.some.inj hpl).symm
  subst hpl'
  obtain ⟨d', hres, hyaml, _⟩ := hall () examplePipelineResponse rfl rfl rfl
  exact ⟨d', hres, hyaml, rfl⟩

end Harness
